import Mathlib

/-!
Verification of the KC-Chain-M2 data-transformation scripts.

This file gives a shallow embedding of the behaviour-relevant parts of the
Python sources under `src/data_transformation/` and settles the frozen claims
about them.  Machine floats are modelled as exact rationals (`ℚ`); a pandas
missing value (`NaN` produced by `pd.isna` / failed parses) is modelled as
`none` of an `Option`; column-wise `DataFrame.apply` is modelled as `List.map`
over column lists.  Strings are ASCII in every dataset, so character classes
(`\d`, `\s`, `str.lower`) are modelled over the ASCII range.
-/

/-! ## Unit parser (network_performance_parsing.py)

The four extractors use `re.search` with the patterns
`(-?\d+(?:\.\d+)?)\s*dBm`, `(\d+(?:\.\d+)?)\s*ms`, `(\d+(?:\.\d+)?)\s*Mbps`,
`(\d+(?:\.\d+)?)\s*Kbps` and `(\d+(?:\.\d+)?)\s*%`.  We model the exact
semantics of these particular regexes: leftmost search, greedy `\d+`, the
optional fraction group with the engine's fallback, greedy `\s*`, then the
case-sensitive unit literal.  Giving back digit characters during
backtracking can never produce a match, because none of the units begins
with a digit, a dot or whitespace, so it is not modelled. -/

/-- Characters matched by `\d` (the ASCII digits). -/
def isDigitCh (c : Char) : Bool :=
  c = '0' || c = '1' || c = '2' || c = '3' || c = '4' ||
  c = '5' || c = '6' || c = '7' || c = '8' || c = '9'

/-- Characters matched by `\s` on ASCII text. -/
def isSpaceCh (c : Char) : Bool :=
  c = ' ' || c = '\t' || c = '\n' || c = '\r' || c = '\x0b' || c = '\x0c'

/-- Greedy `\d+` / `\d*`: split a character list into its maximal digit
prefix and the remainder. -/
def takeDigits : List Char → List Char × List Char
  | [] => ([], [])
  | c :: cs =>
    if isDigitCh c then
      let p := takeDigits cs
      (c :: p.1, p.2)
    else ([], c :: cs)

/-- Greedy `\s*`: drop the maximal whitespace prefix. -/
def dropSpaces : List Char → List Char
  | [] => []
  | c :: cs => if isSpaceCh c then dropSpaces cs else c :: cs

/-- Case-sensitive literal match of the unit at the current position. -/
def unitHere : List Char → List Char → Bool
  | [], _ => true
  | _ :: _, [] => false
  | u :: us, c :: cs => u = c && unitHere us cs

/-- The list starts with a dot. -/
def dotStart : List Char → Bool
  | [] => false
  | c :: _ => c = '.'

/-- The list starts with a minus sign. -/
def dashStart : List Char → Bool
  | [] => false
  | c :: _ => c = '-'

/-- Match `\d+(?:\.\d+)?\s*<unit>` at the current position and return the
captured numeral.  The fraction group is entered when a `.` is present and
followed by a digit; if the unit then fails, the engine falls back to the
match without the group. -/
def matchCore (unit : List Char) (s : List Char) : Option (List Char) :=
  let ds := (takeDigits s).1
  let rest := (takeDigits s).2
  if ds.isEmpty then none
  else if dotStart rest then
    let fs := (takeDigits rest.tail).1
    let rest2 := (takeDigits rest.tail).2
    if fs.isEmpty then
      if unitHere unit (dropSpaces rest) then some ds else none
    else
      if unitHere unit (dropSpaces rest2) then some (ds ++ '.' :: fs)
      else if unitHere unit (dropSpaces rest) then some ds
      else none
  else if unitHere unit (dropSpaces rest) then some ds else none

/-- Match `-?\d+(?:\.\d+)?\s*<unit>` at the current position; the sign is
part of the pattern only when `sign = true` (only the dBm pattern has it). -/
def matchNumAt (sign : Bool) (unit : List Char) (s : List Char) : Option (List Char) :=
  if dashStart s then
    if sign then (matchCore unit s.tail).map (fun n => '-' :: n) else none
  else matchCore unit s

/-- `re.search`: try the pattern at every start position, leftmost first. -/
def reSearchNum (sign : Bool) (unit : List Char) : List Char → Option (List Char)
  | [] => none
  | c :: cs =>
    match matchNumAt sign unit (c :: cs) with
    | some n => some n
    | none => reSearchNum sign unit cs

/-- Numeric value of an ASCII digit character. -/
def digitVal (c : Char) : Nat := c.toNat - 48

/-- Value of a digit string, most significant digit first. -/
def digitsVal : List Char → Nat
  | [] => 0
  | c :: cs => digitVal c * 10 ^ cs.length + digitsVal cs

/-- Python `float` applied to an unsigned captured numeral (`digits` or
`digits.digits`), modelled as an exact rational. -/
def parseUnsigned (cs : List Char) : ℚ :=
  let ds := (takeDigits cs).1
  let rest := (takeDigits cs).2
  if dotStart rest then
    (digitsVal ds : ℚ) +
      (digitsVal (takeDigits rest.tail).1 : ℚ) / (10 : ℚ) ^ ((takeDigits rest.tail).1.length)
  else (digitsVal ds : ℚ)

/-- Python `float` applied to a captured numeral, allowing a leading sign. -/
def parseNumeral (cs : List Char) : ℚ :=
  if dashStart cs then -(parseUnsigned cs.tail) else parseUnsigned cs

/-- `extract_signal_strength` (network_performance_parsing.py lines 56-61):
`re.search(r'(-?\d+(?:\.\d+)?)\s*dBm', str(value))`; `NaN` input and a failed
search both give `NaN`. -/
def extract_signal_strength (v : Option String) : Option ℚ :=
  match v with
  | none => none
  | some s => (reSearchNum true "dBm".data s.data).map parseNumeral

/-- `extract_latency` (lines 71-76): `re.search(r'(\d+(?:\.\d+)?)\s*ms', ...)`. -/
def extract_latency (v : Option String) : Option ℚ :=
  match v with
  | none => none
  | some s => (reSearchNum false "ms".data s.data).map parseNumeral

/-- `extract_bandwidth` (lines 86-101): try the Mbps pattern, then the Kbps
pattern dividing by 1000, else `NaN`. -/
def extract_bandwidth (v : Option String) : Option ℚ :=
  match v with
  | none => none
  | some s =>
    match reSearchNum false "Mbps".data s.data with
    | some n => some (parseNumeral n)
    | none =>
      match reSearchNum false "Kbps".data s.data with
      | some n => some (parseNumeral n / 1000)
      | none => none

/-- `extract_percentage` (lines 116-121): `re.search(r'(\d+(?:\.\d+)?)\s*%', ...)`. -/
def extract_percentage (v : Option String) : Option ℚ :=
  match v with
  | none => none
  | some s => (reSearchNum false "%".data s.data).map parseNumeral

/-! Well-formed numeral tokens, used to quantify over all input numerals in
the parser theorems. -/

/-- Every character is an ASCII digit. -/
def allDigits (l : List Char) : Bool := l.all isDigitCh

/-- The list does not start with a digit. -/
def notDigitStart : List Char → Bool
  | [] => true
  | c :: _ => !(isDigitCh c)

/-- The body of a numeral token: integer digits and an optional fraction. -/
def renderBody (ip : List Char) (fr : Option (List Char)) : List Char :=
  ip ++ (match fr with | none => [] | some f => '.' :: f)

/-- A full numeral token with an optional leading minus sign. -/
def renderNum (neg : Bool) (ip : List Char) (fr : Option (List Char)) : List Char :=
  (if neg then ['-'] else []) ++ renderBody ip fr

/-- The rational value denoted by a numeral token. -/
def numValQ (neg : Bool) (ip : List Char) (fr : Option (List Char)) : ℚ :=
  (if neg then -1 else 1) *
    ((digitsVal ip : ℚ) +
      match fr with
      | none => 0
      | some f => (digitsVal f : ℚ) / (10 : ℚ) ^ f.length)

/-- A unit literal may follow the numeral: it is nonempty and starts with a
character that is not a digit, not whitespace and not a dot. -/
def unitStartOK : List Char → Bool
  | [] => false
  | c :: _ => !(isDigitCh c) && !(isSpaceCh c) && !(c = '.')

/-- The unit literal occurs somewhere in the list as a contiguous substring:
`unitHere` holds at some suffix.  A search for one of the regex patterns can
only succeed on inputs in which its unit literal occurs, so an input whose
numeral is followed by an unrecognized unit — one in which no recognized
unit occurs — always parses to missing. -/
def unitOccursIn (u : List Char) : List Char → Bool
  | [] => unitHere u []
  | c :: cs => unitHere u (c :: cs) || unitOccursIn u cs

/-! ## Temperature conversion (weather_unit_conversion.py) -/

/-- `fahrenheit_to_celsius` (weather_unit_conversion.py lines 71-75):
`NaN` propagates, otherwise `(fahrenheit - 32) * 5/9`. -/
def fahrenheit_to_celsius (f : Option ℚ) : Option ℚ :=
  match f with
  | none => none
  | some x => some ((x - 32) * 5 / 9)

/-- One temperature column converted elementwise, as
`self.raw_data[field].apply(fahrenheit_to_celsius)` does. -/
def convert_temperature_column (col : List (Option ℚ)) : List (Option ℚ) :=
  col.map fahrenheit_to_celsius

/-! ## Timestamp conversion

Each script computes `pd.to_datetime(...).astype(int) // 10**9`: the parsed
time as a signed 64-bit count of nanoseconds since the Unix epoch, then
Python/numpy floor division by 10^9. -/

/-- `convert_timestamps` per value: floor division of the nanosecond
timestamp by 10^9 (`//` rounds toward negative infinity). -/
def convert_timestamp_ns (ns : Int) : Int := Int.fdiv ns 1000000000

/-! ## Dataset loading and encodings -/

/-- The text encodings appearing in the loaders. -/
inductive PyEncoding
  | utf8
  | latin1
  | cp1252
deriving DecidableEq

/-- `RetailPIIAnonymization.load_dataset` (retail_pii_anonymization.py lines
30-44): utf-8 first, latin-1 on a `UnicodeDecodeError`, cp1252 if that also
fails. -/
def retail_encodings : List PyEncoding := [.utf8, .latin1, .cp1252]

/-- The water-quality load in `EnvironmentalDataFusion.load_datasets`
(environmental_fusion.py lines 30-41): the same three-step fallback chain. -/
def water_encodings : List PyEncoding := [.utf8, .latin1, .cp1252]

/-- The air-quality load in `EnvironmentalDataFusion.load_datasets` (line 27):
a bare `pd.read_csv`, i.e. utf-8 only, no fallback. -/
def air_encodings : List PyEncoding := [.utf8]

/-- `NetworkPerformanceParsing.load_dataset` (network_performance_parsing.py
lines 18-22): a bare `pd.read_csv`, utf-8 only. -/
def network_encodings : List PyEncoding := [.utf8]

/-- `AgricultureTransformation.load_dataset` (agriculture_transformation.py
lines 19-28): a bare `pd.read_csv` whose `except` clause re-raises. -/
def agriculture_encodings : List PyEncoding := [.utf8]

/-- `HealthPrivacyProtection.load_dataset` (health_privacy_protection.py
lines 17-21): a bare `pd.read_csv`, utf-8 only. -/
def health_encodings : List PyEncoding := [.utf8]

/-- `WeatherUnitConversion.load_dataset` (weather_unit_conversion.py lines
17-24): a bare `pd.read_csv`, utf-8 only. -/
def weather_encodings : List PyEncoding := [.utf8]

/-- A load step abstracted over decodability: try the declared encodings in
order and return the first that decodes, `none` (the run aborts) when all
fail.  Failure is decode failure; other I/O errors abort immediately in every
loader and are outside this model. -/
def load_with_fallbacks (tried : List PyEncoding) (decodes : PyEncoding → Bool) :
    Option PyEncoding :=
  match tried with
  | [] => none
  | e :: rest => if decodes e then some e else load_with_fallbacks rest decodes

/-! ## Cell-tower identifier assignment (network_performance_parsing.py) -/

/-- A pandas comparison `x >= c` where `x` may be `NaN`: every comparison
with `NaN` is false. -/
def geNaN (x : Option ℚ) (c : ℚ) : Bool :=
  match x with
  | none => false
  | some v => decide (c ≤ v)

/-- The tower number chosen in `create_cell_tower_device_ids` (lines 127-145)
for the row at positional index `i` with parsed signal strength `s`. -/
def tower_num (i : Nat) (s : Option ℚ) : Nat :=
  if geNaN s (-70) then i % 3 + 1
  else if geNaN s (-85) then i % 3 + 4
  else i % 3 + 7

/-- The device identifier `did:lcore:cell-tower-tower-N` assigned to row `i`. -/
def cell_tower_device_id (i : Nat) (s : Option ℚ) : String :=
  "did:lcore:cell-tower-tower-" ++ toString (tower_num i s)

/-- The nine tower identifiers that `create_cell_tower_device_ids` can emit. -/
def all_tower_ids : List String :=
  ["did:lcore:cell-tower-tower-1", "did:lcore:cell-tower-tower-2",
   "did:lcore:cell-tower-tower-3", "did:lcore:cell-tower-tower-4",
   "did:lcore:cell-tower-tower-5", "did:lcore:cell-tower-tower-6",
   "did:lcore:cell-tower-tower-7", "did:lcore:cell-tower-tower-8",
   "did:lcore:cell-tower-tower-9"]

/-- The low-signal towers 7-9. -/
def low_signal_tower_ids : List String :=
  ["did:lcore:cell-tower-tower-7", "did:lcore:cell-tower-tower-8",
   "did:lcore:cell-tower-tower-9"]

/-! ## Identity generators -/

/-- ASCII `str.lower()` on one character (every key in the datasets is
ASCII). -/
def pyLowerChar (c : Char) : Char :=
  if 'A' ≤ c && c ≤ 'Z' then Char.ofNat (c.toNat + 32) else c

/-- `region.lower().replace(' ', '-').replace('&', 'and')` from
`create_store_device_id` (retail_pii_anonymization.py line 105). -/
def region_clean (r : String) : String :=
  String.mk
    (((r.data.map pyLowerChar).map (fun c => if c = ' ' then '-' else c)).flatMap
      (fun c => if c = '&' then "and".data else [c]))

/-- `create_store_device_id` (retail_pii_anonymization.py lines 103-107) with
the store number drawn by the caller:
`did:lcore:retail-{region_clean}-store-{store_num}`. -/
def create_store_device_id (region : String) (store_num : Nat) : String :=
  "did:lcore:retail-" ++ region_clean region ++ "-store-" ++ toString store_num

/-- The agriculture identifier `did:lcore:agri-{plot_id}`
(`AgricultureTransformation.create_device_ids`, agriculture_transformation.py
lines 137-150); the key is interpolated verbatim. -/
def AgricultureTransformation.create_device_id (plot_id : String) : String :=
  "did:lcore:agri-" ++ plot_id

/-- The device-id column built row by row over the plot-id column. -/
def AgricultureTransformation.create_device_ids (plots : List String) : List String :=
  plots.map AgricultureTransformation.create_device_id

/-- Python `x.replace('Device_', '')`: delete every (left-to-right,
non-overlapping) occurrence of `Device_`. -/
def strip_device_token : List Char → List Char
  | 'D' :: 'e' :: 'v' :: 'i' :: 'c' :: 'e' :: '_' :: rest => strip_device_token rest
  | c :: rest => c :: strip_device_token rest
  | [] => []

/-- `HealthPrivacyProtection.convert_device_ids` per value
(health_privacy_protection.py lines 52-58):
`did:lcore:health-tracker-{x.replace('Device_', '')}`. -/
def HealthPrivacyProtection.convert_device_id (x : String) : String :=
  "did:lcore:health-tracker-" ++ String.mk (strip_device_token x.data)

/-- Modelled from the spec (section 4.3), for comparison with the generators
above: the spec's key normalization lowercases, replaces whitespace with
hyphens and strips characters outside a safe identifier charset
(`[a-z0-9-]`).  No generator in the source implements this. -/
def spec_normalize_key (k : String) : String :=
  String.mk
    (((k.data.map pyLowerChar).map (fun c => if isSpaceCh c then '-' else c)).filter
      (fun c => ('a' ≤ c && c ≤ 'z') || isDigitCh c || c = '-'))

/-! ## Schema mappers (C6)

`create_schema_compliant_format` builds the output frame from columns of the
working frame (all sharing one index) plus constant columns; we model the
working table as a list of rows and the mapper as a per-row projection. -/

/-- A row of the network working table after parsing, with the fields read by
`NetworkPerformanceParsing.create_schema_compliant_format` (lines 153-169). -/
structure NetWorkingRow where
  device_id : String
  timestamp_unix : Int
  application_type : String
  signal_strength_dbm : Option ℚ
  latency_ms : Option ℚ
  required_bandwidth_mbps : Option ℚ
  allocated_bandwidth_mbps : Option ℚ
  resource_utilization : Option ℚ

/-- A row of the network output table (the `network_sensors` schema). -/
structure NetOutputRow where
  device_id : String
  owner_address : String
  timestamp : Int
  application_type : String
  signal_strength_dbm : Option ℚ
  latency_ms : Option ℚ
  required_bandwidth_mbps : Option ℚ
  allocated_bandwidth_mbps : Option ℚ
  resource_utilization : Option ℚ
  encrypted_data : String
  data_hash : String

/-- `NetworkPerformanceParsing.create_schema_compliant_format` (lines
153-169): one output row per working row, copying the derived columns and
filling the placeholder constants. -/
def NetworkPerformanceParsing.create_schema_compliant_format
    (rows : List NetWorkingRow) : List NetOutputRow :=
  rows.map fun r =>
    { device_id := r.device_id
      owner_address := "PLACEHOLDER_FOR_CARTESI"
      timestamp := r.timestamp_unix
      application_type := r.application_type
      signal_strength_dbm := r.signal_strength_dbm
      latency_ms := r.latency_ms
      required_bandwidth_mbps := r.required_bandwidth_mbps
      allocated_bandwidth_mbps := r.allocated_bandwidth_mbps
      resource_utilization := r.resource_utilization
      encrypted_data := "CARTESI_GENERATED"
      data_hash := "CARTESI_GENERATED" }

/-- A row of the weather working table after conversion, with the fields read
by `WeatherUnitConversion.create_schema_compliant_format` (lines 128-147). -/
structure WeatherWorkingRow where
  device_id : String
  timestamp_unix : Int
  temp_celsius : Option ℚ
  feelslike_celsius : Option ℚ
  dew_celsius : Option ℚ
  humidity : Option ℚ
  precip : Option ℚ
  windspeed : Option ℚ
  winddir : Option ℚ
  visibility : Option ℚ
  conditions : String

/-- A row of the weather output table (the `weather_sensors` schema). -/
structure WeatherOutputRow where
  device_id : String
  owner_address : String
  timestamp : Int
  temperature_celsius : Option ℚ
  feels_like_celsius : Option ℚ
  dew_point_celsius : Option ℚ
  humidity_percent : Option ℚ
  precipitation_mm : Option ℚ
  wind_speed_kmh : Option ℚ
  wind_direction_degrees : Option ℚ
  visibility_km : Option ℚ
  conditions : String
  encrypted_data : String
  data_hash : String

/-- `WeatherUnitConversion.create_schema_compliant_format` (lines 128-147). -/
def WeatherUnitConversion.create_schema_compliant_format
    (rows : List WeatherWorkingRow) : List WeatherOutputRow :=
  rows.map fun r =>
    { device_id := r.device_id
      owner_address := "PLACEHOLDER_FOR_CARTESI"
      timestamp := r.timestamp_unix
      temperature_celsius := r.temp_celsius
      feels_like_celsius := r.feelslike_celsius
      dew_point_celsius := r.dew_celsius
      humidity_percent := r.humidity
      precipitation_mm := r.precip
      wind_speed_kmh := r.windspeed
      wind_direction_degrees := r.winddir
      visibility_km := r.visibility
      conditions := r.conditions
      encrypted_data := "CARTESI_GENERATED"
      data_hash := "CARTESI_GENERATED" }

/-! ## Seeded store-number stream (retail_pii_anonymization.py)

`create_retail_device_ids` seeds CPython's Mersenne Twister with
`random.seed(42)` and then draws `random.randint(1, 3)` once per row.  We
model MT19937 exactly as CPython implements it for the integer key `42`:
`init_by_array([42])` over `uint32_t` state words, the twist, the tempering,
`getrandbits(2)` as the top two bits of an output word, and
`_randbelow(3)` as rejection sampling over `getrandbits(2)`. -/

/-- Reduce to an unsigned 32-bit value, as the `uint32_t` state arithmetic
does. -/
def mask32 (x : Nat) : Nat := x % 4294967296

/-- One step of `init_genrand`:
`mt[i] = 1812433253 * (mt[i-1] ^ (mt[i-1] >> 30)) + i`. -/
def mtInitStep (prev i : Nat) : Nat :=
  mask32 (1812433253 * (prev ^^^ (prev >>> 30)) + i)

/-- The `n` words of the `init_genrand` state after index 0, starting from
word `prev` at index `i`. -/
def mtInitTail : Nat → Nat → Nat → List Nat
  | 0, _, _ => []
  | n + 1, prev, i =>
    let v := mtInitStep prev i
    v :: mtInitTail n v (i + 1)

/-- One update of `init_by_array`'s first mixing loop for the key `[42]`
(the key index is always 0, so the additive term is always `42 + 0`):
`mt[i] = (mt[i] ^ ((mt[i-1] ^ (mt[i-1] >> 30)) * 1664525)) + 42`. -/
def mix1Step (x prev : Nat) : Nat :=
  mask32 ((x ^^^ mask32 ((prev ^^^ (prev >>> 30)) * 1664525)) + 42)

/-- `mix1Step` along a list of old words, threading the freshly written
previous word. -/
def mix1Pass : List Nat → Nat → List Nat
  | [], _ => []
  | x :: rest, prev =>
    let v := mix1Step x prev
    v :: mix1Pass rest v

/-- One update of `init_by_array`'s second mixing loop:
`mt[i] = (mt[i] ^ ((mt[i-1] ^ (mt[i-1] >> 30)) * 1566083941)) - i`, the
subtraction taken in `uint32_t`. -/
def mix2Step (x prev i : Nat) : Nat :=
  mask32 ((x ^^^ mask32 ((prev ^^^ (prev >>> 30)) * 1566083941)) + (4294967296 - i))

/-- `mix2Step` along a list of old words, threading the previous word and the
running index. -/
def mix2Pass : List Nat → Nat → Nat → List Nat
  | [], _, _ => []
  | x :: rest, prev, i =>
    let v := mix2Step x prev i
    v :: mix2Pass rest v (i + 1)

/-- Words 1-623 of `init_genrand(19650218)`, the state `init_by_array`
starts from. -/
def mtInitTail623 : List Nat := mtInitTail 623 19650218 1

/-- Words 1-623 after the first 623 iterations of the first mixing loop
(indices 1-623, previous word starting at `mt[0] = 19650218`). -/
def mix1TailA : List Nat := mix1Pass mtInitTail623 19650218

/-- The wrap after those 623 iterations copies `mt[623]` into `mt[0]`. -/
def mix1W0 : Nat := mix1TailA.getLast?.getD 0

/-- The 624th iteration of the first loop rewrites `mt[1]` using the wrapped
`mt[0]`. -/
def mix1W1 : Nat := mix1Step (mix1TailA.head?.getD 0) mix1W0

/-- Words 2-623 after the first 622 iterations of the second mixing loop
(indices 2-623). -/
def mix2RestA : List Nat := mix2Pass mix1TailA.tail mix1W1 2

/-- The wrap of the second loop again copies `mt[623]` into `mt[0]`. -/
def mix2W0 : Nat := mix2RestA.getLast?.getD 0

/-- The final (623rd) iteration of the second loop rewrites `mt[1]`. -/
def mix2W1 : Nat := mix2Step mix1W1 mix2W0 1

/-- The full 624-word MT19937 state after `random.seed(42)`:
`init_by_array` ends by forcing `mt[0] = 0x80000000`. -/
def mtStateSeed42 : List Nat := 2147483648 :: mix2W1 :: mix2RestA

/-- MT19937 tempering of one untempered output word. -/
def mtTemper (y0 : Nat) : Nat :=
  let y1 := y0 ^^^ (y0 >>> 11)
  let y2 := y1 ^^^ (mask32 (y1 <<< 7) &&& 0x9d2c5680)
  let y3 := y2 ^^^ (mask32 (y2 <<< 15) &&& 0xefc60000)
  y3 ^^^ (y3 >>> 18)

/-- The `j`-th 32-bit output of the generator in state `m`, for `j < 227`:
the twist of word `j` reads `mt[j]`, `mt[j+1]` and `mt[j+397]`, which for
such `j` are all still words of `m` (later outputs read words rewritten
earlier in the twist).  Every draw evaluated below has `j < 227`. -/
def mtGenrand (m : List Nat) (j : Nat) : Nat :=
  let y := ((m.getD j 0) &&& 0x80000000) ||| ((m.getD (j + 1) 0) &&& 0x7fffffff)
  mtTemper ((m.getD (j + 397) 0) ^^^ (y >>> 1) ^^^ (if y % 2 = 1 then 0x9908b0df else 0))

/-- `random.getrandbits(2)` after `random.seed(42)`: the top two bits of the
`j`-th output word. -/
def getrandbits2Seed42 (j : Nat) : Nat := mtGenrand mtStateSeed42 j >>> 30

/-- `random.randint(1, 3)` = `1 + _randbelow(3)`, where `_randbelow(3)` draws
`getrandbits(2)` and rejects values `≥ 3`; takes the `getrandbits(2)` stream
and the next unconsumed draw index, returns the value and the new index.
The rejection loop is bounded by fuel (CPython loops unboundedly; every draw
evaluated below accepts within the fuel). -/
def nextRandint13 (gb2 : Nat → Nat) : Nat → Nat → Option (Nat × Nat)
  | 0, _ => none
  | fuel + 1, j =>
    if gb2 j < 3 then some (gb2 j + 1, j + 1) else nextRandint13 gb2 fuel (j + 1)

/-- `create_retail_device_ids` (retail_pii_anonymization.py lines 99-114):
one fresh `randint(1, 3)` per row of the `store_region` column, so the
store number depends on the row's position in the stream, not on the
region value. -/
def create_retail_device_ids (gb2 : Nat → Nat) : List String → Nat → Nat → List String
  | [], _, _ => []
  | r :: rest, fuel, j =>
    match nextRandint13 gb2 fuel j with
    | none => []
    | some (v, j2) => create_store_device_id r v :: create_retail_device_ids gb2 rest fuel j2

/-- The first `n` `randint(1, 3)` draws of the stream, starting at draw
index `j`; depends only on the stream, never on the region column. -/
def randint_draw_list (gb2 : Nat → Nat) : Nat → Nat → Nat → List Nat
  | 0, _, _ => []
  | n + 1, fuel, j =>
    match nextRandint13 gb2 fuel j with
    | none => []
    | some (v, j2) => v :: randint_draw_list gb2 n fuel j2

/-- The whole retail identifier assignment as the script runs it:
`random.seed(42)` then one `randint(1, 3)` per row. -/
def retail_device_ids_seed42 (regions : List String) : List String :=
  create_retail_device_ids getrandbits2Seed42 regions 64 0

/-- Pointwise certificate that a list is the `mtInitTail` chain from `prev`
at index `i`; checking it only compares adjacent literal words, which keeps
kernel reduction shallow. -/
def mtInitCheck : Nat → List Nat → Nat → Nat → Bool
  | 0, [], _, _ => true
  | n + 1, v :: vs, prev, i => (v = mtInitStep prev i) && mtInitCheck n vs v (i + 1)
  | _, _, _, _ => false

/-- Pointwise certificate for `mix1Pass`. -/
def mix1Check : List Nat → List Nat → Nat → Bool
  | [], [], _ => true
  | x :: xs, v :: vs, prev => (v = mix1Step x prev) && mix1Check xs vs v
  | _, _, _ => false

/-- Pointwise certificate for `mix2Pass`. -/
def mix2Check : List Nat → List Nat → Nat → Nat → Bool
  | [], [], _, _ => true
  | x :: xs, v :: vs, prev, i => (v = mix2Step x prev i) && mix2Check xs vs v (i + 1)
  | _, _, _, _ => false
def mtInitTailLit : List Nat :=
  [
    2194844435, 874550967, 1417962806, 719805879, 2188372024, 721660136, 1814940559, 2833403150,
    3889680837, 1003665704, 1330738387, 2892331238, 3489052161, 3855278296, 3311200630,
    1422571577, 2585306665, 2882769417, 2783805802, 4207719964, 2400416080, 2341377904,
    2590753297, 3924081815, 1211472509, 3057012486, 3436335279, 551149560, 1318655221, 1900533858,
    3537525294, 2107812065, 3148644481, 594136785, 1814262168, 1224061569, 653651109, 254650943,
    2832785922, 3699583528, 2088609312, 3529585711, 41492871, 2876012911, 4240588078, 1402615791,
    1934126869, 3096545044, 2890863071, 80499043, 970921794, 3007610686, 750866145, 799115259,
    3629971774, 2864380489, 3888374480, 2087741561, 3146346387, 3269762417, 2727485495,
    2488668711, 2964190680, 2116659522, 4141458096, 3537107937, 3667677805, 2429248426,
    2452306317, 3015982257, 499957222, 2360410630, 4194693085, 147288288, 3359074475, 1635136148,
    4073107990, 3628367767, 3898116531, 275612352, 2842514961, 3115851985, 3103448722, 302309156,
    22171017, 2075519075, 3671007489, 3949991970, 1963601502, 4167967445, 804406473, 1055110313,
    3894654986, 2278780139, 34711884, 4121261916, 3468881884, 2287991389, 393453278, 548699130,
    1499706375, 332872900, 1556864443, 1043137738, 4174970395, 1614747618, 669116410, 1897615374,
    3255278936, 1370736725, 1550777747, 1685794058, 1862314184, 2400528575, 2672900100,
    1647333586, 3524644532, 1765506473, 2857335743, 3636393737, 2932986219, 1203228647,
    1628511289, 3647085204, 2987412752, 2905279128, 2631768385, 4014428911, 1727529885,
    1124854030, 2262104686, 2499713312, 2421398767, 4134715143, 2358935835, 1002066021, 340444514,
    3268366900, 1112268606, 1897974631, 3331577291, 2922602614, 3423543891, 1267030560,
    2344564886, 1942259446, 3179572998, 1573187880, 1205933762, 3025229445, 4246102746, 346693941,
    2002220930, 1829519945, 3309743875, 1904872348, 955816590, 2796353700, 668528669, 2648785169,
    2704726048, 893089804, 738773343, 2832484895, 2050343702, 104744889, 3439545764, 980222603,
    422274176, 3865519914, 2026267864, 539814729, 4137805178, 1140607595, 2537690753, 3971218783,
    1931293181, 3089667358, 1133695167, 399772074, 3682192071, 4293649418, 1029228868, 3902327948,
    1974090788, 3344730195, 2795804747, 3396216457, 366677807, 416687433, 930072460, 901228284,
    1521860141, 3484259358, 478803252, 3138556488, 4137898487, 3807832586, 3773310804, 3221624091,
    3076008769, 4156878137, 406561453, 3897607181, 623564883, 2247148685, 1696011322, 2911604503,
    3979653402, 742342831, 3881512158, 2282092805, 2681274264, 3681829528, 46152446, 3126539534,
    3635632789, 1012335624, 3686064131, 2587648220, 2008745587, 2556071384, 1788453345, 861781568,
    2727104545, 758340017, 1880693944, 2136364769, 1370367813, 798286522, 506003017, 2520802485,
    2991500316, 3489134272, 3275208410, 1640252809, 3797759893, 4271912220, 3111882026, 140581304,
    2568658569, 2686841033, 3059852298, 293994524, 1890650113, 1797269750, 3428669802, 1401714789,
    2643788909, 3727894469, 2833360921, 1622853283, 3832221927, 277065458, 3711010937, 4192871202,
    3356722694, 680496635, 2574997514, 1476265004, 3232676806, 3318710975, 4210635059, 4159903992,
    2116300560, 2532158399, 718792604, 2539969944, 3164133583, 2649636591, 2200349072, 2851998122,
    670873689, 2613796143, 3562264788, 1174445287, 1149173203, 2225964784, 4266377361, 3119455410,
    1518371465, 1816545474, 2516586762, 240910660, 2681595121, 1301176317, 3127753611, 862342957,
    771183330, 438085196, 1046497567, 922186079, 1222939296, 51184555, 1757804190, 426665187,
    2730510776, 2573705612, 1312406577, 667742236, 3239950393, 2582034960, 3759737929, 1601926242,
    2947737408, 975540284, 1285948639, 3761027786, 1226457986, 34782949, 2916146832, 142734034,
    569716755, 4042990521, 3947471773, 1575951506, 3517313596, 3100986137, 2199197158, 3376719924,
    4087139828, 3705107125, 1482533137, 1541227668, 1678953742, 2056318769, 3045003063,
    1622629937, 487578169, 4137196231, 3764647071, 2241527512, 2558474063, 1038354351, 2094837850,
    2481932343, 3229539130, 3756851151, 1006180559, 4181103103, 3565909441, 2371373280,
    1493415041, 160348120, 1285104017, 3595587370, 4264242568, 1161124915, 2042766103, 737713932,
    3481808155, 478389208, 1300643225, 1007986266, 1168231653, 3652705112, 2909421388, 3924670764,
    1731016690, 4084014919, 4205099837, 1373900512, 2937538864, 2730075174, 957417377, 3258199283,
    87174175, 792789163, 2527971304, 2716998340, 3091367825, 97659251, 1782441684, 919015551,
    735476370, 87326482, 926205331, 1888657273, 3715638227, 1715499660, 1922410526, 4175228089,
    1525608673, 3578587616, 2042086160, 3730509879, 3607443975, 3879209240, 3652717612,
    2372597521, 3471943430, 2765853569, 3643232056, 3297105617, 2692883557, 1805942063,
    1394934451, 3337180104, 1181922214, 2331394419, 306465830, 3736887952, 1729663122, 3390355091,
    2379159653, 3851731257, 4021176185, 1079541434, 433656928, 1831627642, 2892512290, 4063025724,
    406246264, 1293199350, 1120564498, 3926678815, 1350089133, 4273098366, 3385122292, 993379095,
    725502136, 25504318, 752278045, 3729298457, 2392480235, 2657233815, 320925812, 2950230896,
    989728679, 506301841, 1404204260, 1413065993, 865242585, 866785615, 1859142878, 589268143,
    775553472, 1410495094, 1607063978, 3888932143, 704411669, 3513884419, 3370826939, 2896358996,
    439226283, 2352722741, 1626809714, 246502175, 189424636, 1337937966, 3719088974, 4178799653,
    2794717891, 1831166187, 1862432793, 2263235392, 3847861459, 802662362, 3621709005, 2634319122,
    3245216029, 1466421412, 1528864744, 349292989, 3152395874, 3374677426, 2279952808, 1238578150,
    107682552, 913857966, 3747681661, 3560958606, 3617063034, 1988620951, 1854864649, 1862999556,
    2962654934, 1498851202, 2003448718, 2942754891, 798789550, 3882536840, 3338815162, 3066948065,
    2057094004, 4171611151, 4284063395, 2325690120, 2659914459, 165909127, 2783186990, 2161504072,
    343671839, 2751150377, 3621950182, 222528329, 3219381950, 238911006, 2710753737, 2982111755,
    1115859074, 156211365, 228231184, 2302165064, 933165355, 4181545713, 2201173365, 291303663,
    19134280, 3581811046, 68817880, 1037069880, 2445243929, 2507869609, 1468655994, 2646143627,
    2709652242, 559859542, 2657856757, 248278651, 656698256, 2682159578, 3542996035, 2775252812,
    1761180115, 3646714856, 2330951878, 834843492, 3951905925, 744286448, 3621804227, 2822882772,
    1168938371, 3349647456, 672527398, 1163635478, 3445281068, 722448549, 3543924788, 2823456463,
    1931863550, 2483173049, 4148604134, 3081487737, 2916138664, 940193076, 4142650279, 2563327448,
    3737140007, 2407111514, 243557343, 1657192483, 3995730323, 1012445178, 2365602253, 2830079959,
    2287658550, 2893719730, 2373631903, 4215513121, 189686171, 2003138393, 3410898923, 1020530876,
    1103312993, 1976606742, 899447370, 1949555562, 3167671920, 595304244, 1919198655, 2929333298,
    619161901, 623498751, 2063591130, 763251111, 4291719204, 3951567013, 2998385089, 758818611,
    1375945828, 2510752543, 4188334520, 121785359, 3225750324, 1354685949, 1643999927, 911976986,
    518523023, 3993561529, 2326708913, 336174575, 853096604, 2873283550, 4022490143, 3010604384,
    2080594943, 1702902668, 3360749048, 4184957279, 2421794725, 4155016765, 3104188113,
    1576615579, 604774175, 2739462297, 4096823942, 1932918233, 1779286169, 2544260698, 1430072091,
    2196303270, 4237199385, 2613550760, 1481676153, 2920297152, 2463881971, 1098865791,
    2939219489, 2494804283, 3108728554, 1635052534, 2905164258]

def mix1TailLit : List Nat :=
  [
    4287171035, 3185121657, 4122224691, 71202801, 1393620271, 3221843944, 489200522, 1902161718,
    2210405944, 195304964, 2801691409, 3793058107, 271434243, 438431017, 3294922893, 162216761,
    3854766582, 2402227618, 2169264244, 1701394444, 81885219, 1530043617, 2274948507, 963957372,
    1289585243, 1439643070, 3863249990, 3358780067, 321437439, 2908067003, 3195083125, 1159732756,
    2231788986, 532395187, 1612779193, 896974339, 3018994860, 3328551699, 3778735612, 4097541637,
    1233097880, 3250697748, 3487254742, 2727930344, 4195557878, 4042744008, 867935108, 3808453322,
    4165798932, 2016777842, 473588415, 3853673143, 1278735855, 11786007, 1783164735, 2024677529,
    1466946962, 2807104056, 1176721291, 4089639837, 2063037275, 2382800351, 3215757323,
    4029566817, 2421469556, 3042704713, 1115090124, 1923340269, 2723071899, 2898011294,
    1387052596, 353027297, 1878215386, 3864428585, 1706579635, 1967088072, 856276813, 4034403240,
    747241542, 1436444024, 4146531166, 2385478034, 1977756396, 1488929623, 1218634497, 3120721805,
    2504426860, 1577878238, 4286861623, 1481176475, 2792067141, 1526868316, 1838129117,
    3786124017, 2405937968, 3962139392, 1945888549, 1547234995, 3121780222, 2699329120,
    3571761959, 271940666, 522958707, 3567658567, 1150023577, 228930948, 2575018104, 4115233382,
    1834739875, 3047068825, 3070799990, 2573730072, 960676548, 137679733, 2181915423, 4231055061,
    2056032916, 3844911714, 2006962044, 3661668474, 802721144, 3231920425, 4226492229, 2333014084,
    4153684680, 968719617, 1062938230, 2772346171, 443292322, 1088425822, 2534628327, 3473633707,
    3155569041, 2272858522, 1520104909, 1661178723, 3425911490, 2462260259, 2988264637,
    1201091838, 3357646690, 2979913157, 1608494962, 1811669281, 1478628960, 1306152517, 778927772,
    83453166, 1040179966, 4050447501, 1068561942, 3531956821, 118306310, 2294571057, 1343134654,
    1777928537, 3155039264, 2258790728, 4088669449, 1493212349, 2967471574, 4200446962,
    1176852620, 3190220640, 3129542934, 4088998375, 4082677082, 1394518328, 4020709775, 852607840,
    1142509410, 1807323512, 1804762249, 3198863533, 3304782988, 1206202438, 3721628816,
    4029882515, 4231059481, 1221287202, 178480682, 1626409042, 4176590749, 155552692, 2809130026,
    4025640581, 1637482671, 2826664585, 2909836362, 1006768907, 2360057389, 3454231753,
    3168478361, 3044280811, 1980867595, 2955526900, 1769061299, 487038506, 342483872, 3031718501,
    1784973988, 4155581826, 3400724298, 484374754, 3114563411, 507351482, 692950642, 428835079,
    4267042411, 2288870417, 2920516179, 2852566338, 2652785666, 1587912386, 1316354883,
    1037515646, 1816355869, 475806094, 365912159, 3205029433, 2558184630, 825921830, 1746740025,
    1722197954, 1574266608, 4115667382, 2447732915, 2877319238, 1545225307, 4275025490,
    2670818942, 3398699299, 2601097958, 478167934, 3884062694, 2377724242, 780162735, 142939689,
    653065065, 4212425751, 1266955191, 791860513, 3235470545, 1728144096, 12690326, 1099512466,
    1978978887, 1098967573, 290906003, 2381040604, 3087033993, 3838398934, 919213408, 1940192060,
    4181825674, 1234597889, 2691145264, 3382933915, 2800542940, 1628968852, 361048961, 2742950236,
    4283010335, 4215425726, 113129139, 3993154258, 3038559531, 2310024375, 838319144, 60440849,
    2085468791, 3560796798, 1460479530, 4174925610, 1507099627, 1479766575, 1692917167,
    2897875792, 845965285, 1605146685, 617030063, 332998475, 3355570671, 2161463778, 394366139,
    3228039340, 3239698834, 373257626, 3421046362, 3356585715, 3471182681, 1929977591, 926287112,
    3532288749, 2094357682, 2116969502, 159786581, 872772103, 3160221844, 2185241516, 1718262809,
    1914029906, 263732648, 1697605140, 1368615547, 2096534584, 1568880740, 1775477269, 3479007408,
    3325277724, 3655812909, 572064686, 793752559, 1273986756, 1134644678, 292692403, 1997666901,
    521037191, 3108562023, 148143935, 2033737201, 359471023, 2253210908, 12137020, 3746936876,
    29686652, 2536448677, 3073708660, 1570580977, 2394446881, 1394502530, 1387682217, 68963057,
    4046508988, 497249043, 2168343018, 1497033756, 3473568992, 599554418, 1008797535, 980372540,
    1287294998, 337825748, 969519686, 4186099785, 4153164050, 815677055, 3663960682, 2736229996,
    3091763396, 2805732159, 1378872299, 63835045, 1361310565, 1932589339, 1777391924, 546904871,
    2794148865, 1274692095, 4037251787, 1089904447, 1289929968, 3532803895, 464066988, 1888342599,
    65387943, 1152911246, 2719178002, 2651709026, 3848048718, 653624994, 4131146611, 2402521742,
    392767885, 243020005, 4212311773, 2448050431, 2453478858, 1928859941, 1068582018, 4285263534,
    2963660954, 2754480003, 3181391511, 2039052459, 1693699263, 2508596171, 1871375959,
    2463257244, 3731738945, 2996063110, 593100383, 2803207189, 78484004, 168617947, 550008154,
    2912736075, 699368359, 2715781895, 1473072220, 2762646217, 3789964553, 2436230458, 3433950581,
    1815546565, 2678940407, 881255218, 3642297178, 94707215, 1879043043, 493173378, 2013863632,
    2769290767, 376101769, 1703726865, 2436546297, 1055788348, 2827672220, 4065514524, 1056300206,
    2656682136, 2647853590, 964272451, 4272977576, 1516990830, 3827291998, 1587613175, 4179315256,
    4282861954, 2511121478, 1790550970, 198541216, 314816291, 3807979442, 3255881037, 3126461571,
    3939279223, 1830688956, 2904446557, 3086440998, 2600571883, 548784128, 1442944229, 621382122,
    1013396339, 3116621324, 1212088302, 3442633318, 4003120903, 1999954756, 2354496505, 789813700,
    2448614497, 321219606, 522139953, 500061799, 3434076690, 4004413233, 3333588337, 3713710082,
    2590682938, 584377766, 1587892912, 3564204394, 2882938465, 99817695, 283987237, 3098909489,
    3814795673, 1693722022, 3419694640, 558065731, 1830419783, 3616944707, 3697864819, 320588766,
    1153910970, 2785711399, 1106863001, 3730210589, 90498898, 4129727692, 987078243, 659723536,
    263795406, 1952847011, 1717569219, 2484901116, 3944076903, 2594711997, 1261906119, 1202985328,
    4130165964, 2075521492, 3012015969, 350437752, 3216768464, 1662185950, 2458842052, 2231775023,
    2432957429, 2281221464, 3890618796, 1258958805, 3185057049, 1846046424, 1190800026,
    1636571994, 1942311681, 1315516048, 1947480239, 2360976152, 2555171445, 1880758220,
    1046088253, 2535662012, 1447717342, 2145647919, 2425979853, 1867204130, 1493953153,
    3025627524, 2579262391, 3275909543, 3649293489, 1442718476, 2261546393, 4204923365,
    2855233621, 2485460677, 2255782658, 2740806398, 1852242809, 4119004578, 277584693, 3661714641,
    2831428528, 3570308313, 1948937040, 4019732476, 1728330807, 1484301361, 1870518976,
    2630730974, 2173573550, 2352472242, 2775014273, 474583721, 3429692380, 335783731, 3259804786,
    593758152, 2275153125, 562607723, 1880284364, 1817998312, 553344781, 2962401605, 1672043822,
    1595069804, 669852988, 1373223807, 4083062455, 4290334658, 3721120470, 824675057, 3833294497,
    3793285498, 3162877823, 3666946199, 2543493733, 2231655731, 3167021178, 2608745489,
    3748366423, 2911186445, 2690261265, 2736004988, 3983045841, 945896899, 4053110957, 1755097075,
    3626244892, 99153606, 4164446052, 2107742192, 4223324084, 3058031739, 2178769108, 2947663761,
    3024647920, 2965236687, 2655297567, 2942205137, 1373715666, 1681196545, 2971014697,
    2426894797, 806378661, 4171895656, 3649780212, 3655458272, 51220608, 4131022917, 3512021179,
    4160498155, 3692561016, 2400051216, 3333442717, 1196330630, 2211130858, 2745903512,
    1858138357, 2623990518, 3170612039, 3454184043, 4199271909, 1143358715, 3739742909,
    3854481095, 971911496, 3384269704, 1565245975]

def mix2RestLit : List Nat :=
  [
    1266698288, 4212342371, 3595291661, 3180588708, 3037210256, 946923017, 2565409715, 2900535780,
    924383152, 4180157270, 4230508198, 2039675917, 3755350407, 2362848650, 2818100609, 2097423432,
    524478045, 540883378, 281170210, 1485176884, 1493190386, 1773214509, 380915208, 3667698522,
    2648371337, 2961234806, 3857480267, 1582950522, 246289694, 3322185604, 1944574775, 302623699,
    169865066, 1143540808, 3733177770, 513116636, 1411153081, 3205493053, 768926902, 549624109,
    1470655403, 59539609, 3678480009, 3087139671, 1176835859, 2078491503, 2299934332, 1592059249,
    1062716176, 2654193596, 3531838733, 2661260596, 3881209635, 2106865768, 4154287292,
    2082185616, 2301197011, 2177349827, 3082181756, 1787663536, 3714670796, 3018262113,
    1670056238, 1856738750, 99824592, 2279837081, 1414647942, 3416675731, 3458782472, 3997022236,
    468762002, 2666158583, 953353270, 1788980658, 3802061067, 407586584, 1844776834, 1906917274,
    3154715663, 3028370222, 4156024188, 3996363428, 80495456, 2659800972, 2005649973, 3818358673,
    3952623596, 2506862371, 3282302532, 263923435, 3384662671, 3292439172, 3119957588, 1224426111,
    899864150, 215262826, 1619647231, 3347694949, 3497868538, 2029552053, 2992804824, 4080010250,
    2023513186, 1885979437, 3564622190, 3775424270, 2297810139, 3549449169, 2664856277,
    3274801974, 2794883969, 980412666, 2980215653, 2794389321, 2816521934, 1266970739, 542306338,
    3646225311, 3598997630, 2111980720, 2949252482, 2489027658, 352815024, 11610683, 1386663624,
    2004196796, 1161461546, 1921293780, 2463949525, 1647009713, 3550093655, 2563894064,
    3486310554, 1506105865, 243092931, 2659437476, 4200687059, 2284345122, 1974438610, 3591096528,
    967119212, 3362401375, 140678365, 311602112, 2361740275, 2139598582, 3632873481, 2762232439,
    4156482318, 381637792, 3253346525, 2492118775, 1502434558, 3164497290, 3550998357, 2412448305,
    2223955385, 4122879535, 350121793, 1835149778, 2175117867, 989674750, 3178241202, 3553093569,
    3470650311, 2829698151, 3209427769, 1779174943, 275388428, 4044574515, 715447260, 3180940440,
    4020772289, 1322708567, 3189868792, 4250485633, 716970023, 2307550151, 1074996711, 1217573599,
    197006094, 2178394212, 1255233746, 4164251484, 1405608772, 2808160475, 1304736088, 1796071066,
    2761748078, 3570739698, 1616118556, 2232868135, 3567541936, 3470600401, 3031621994,
    3351764214, 1359785149, 2617497797, 3340028190, 356162828, 2083806068, 2503635608, 4024838996,
    2577080371, 2897993505, 3120733934, 905794891, 2506078507, 4211618666, 3777871979, 809751414,
    4080874167, 1562977008, 3917373055, 2132779194, 4014249473, 4067327082, 2582869847,
    1780081876, 1842619106, 3381761227, 921004274, 1393256920, 1883566732, 2702071861, 865327389,
    1622085203, 3021825820, 2687061406, 1748902923, 689023977, 308399650, 2377287978, 1646969411,
    1051806316, 4277884230, 2041056290, 101134519, 2032472116, 4112521069, 151202901, 2773743461,
    551348559, 3476836808, 510935951, 625057077, 3757450756, 2977698135, 3027776859, 2616998041,
    2773430005, 544190486, 2241368212, 1141105829, 1452816309, 4199229235, 3218013033, 4229475816,
    1659576351, 3020348754, 1193400518, 3208584597, 1151197733, 2597187966, 503065140, 2421841572,
    1437291709, 1909275895, 2872630545, 793588217, 3792934707, 1784451785, 2921385648, 1669902526,
    4189978976, 1196986251, 434805516, 1907541826, 2624415034, 1687778718, 650746582, 1949153382,
    4148493093, 841300520, 1164202054, 4203468658, 4106300911, 850346789, 1715730760, 3114661489,
    2866524548, 1360448945, 3601318775, 1743078223, 2413855408, 1211895622, 325117146, 2721152875,
    1284334485, 2446538832, 739014618, 2237045115, 842553465, 2538598293, 746460793, 4010387366,
    2002655192, 4193733112, 1194380773, 3918217378, 1447487475, 5659228, 3408847694, 4190318700,
    1862549564, 781683719, 1194618118, 755053413, 3436011942, 2885435303, 3081151348, 2017642831,
    1053816502, 1086627485, 2157296554, 110650022, 965352898, 1003174194, 1288956241, 4057404871,
    2965068465, 2897064481, 2457377317, 1879872545, 358455290, 375086701, 3015902095, 1676249984,
    924455526, 2084169389, 1989014644, 1993749926, 2009424973, 2113340508, 3980883273, 2915977458,
    203328382, 3020815229, 2415050113, 4103009585, 3700885489, 2916647550, 1523006503, 174302338,
    2476909338, 1969322490, 4285741984, 1528449097, 3355315515, 4217241278, 599579127, 2572243673,
    3035856735, 1539140489, 1782314913, 4238644287, 1746424142, 1978148312, 2380746849, 184941882,
    1106717981, 1720750349, 981701307, 3953154731, 3257809181, 2892339376, 3339778166, 3676936849,
    87425948, 3029257381, 2037942523, 3807628706, 2861474706, 1058852346, 1322765211, 2686046342,
    2689342655, 2303436168, 2571627181, 1986057734, 1183564308, 2829677523, 1295563975, 503126586,
    2025890348, 4179277821, 1735262467, 981331774, 1613447066, 1011606109, 2000062246, 3581448390,
    3477731384, 3641307373, 3508544379, 2327233491, 3931944343, 4189052882, 2990416380, 422406169,
    202291313, 2531006461, 4277024116, 3815144003, 821314585, 1344175168, 3562834071, 1339615445,
    1831545190, 3115548822, 743512780, 4006999448, 3720181735, 1012033521, 919931041, 2628967879,
    1151876565, 1268107129, 3674829936, 834977846, 743987006, 3947536548, 3706529695, 4121073678,
    2507605742, 1595636918, 2708047833, 2427507331, 3868216331, 3254240010, 2097683411,
    3279710596, 3686819053, 1843541720, 1683793619, 3245287285, 3571828776, 3733296431,
    3806747478, 1390930605, 3860422228, 114397037, 1931519825, 2770684378, 1556101783, 1436111731,
    4031950081, 562876656, 1775895782, 612364620, 1313509772, 4283410242, 3252958463, 2176555836,
    3933073367, 3013277102, 1444071961, 3120949516, 2824578890, 325676929, 943677134, 1800649256,
    1721927060, 347498719, 1435221321, 2623572981, 1408548470, 4145586315, 2901889237, 1849377952,
    1239144551, 3382598266, 2992893897, 3738297588, 611280106, 3897415338, 2370299241, 1772308583,
    3697465753, 354508058, 2702360134, 591308331, 3524072501, 976616000, 2563717192, 3078266097,
    1376594703, 4209795919, 2454412767, 2712206031, 2963860163, 3734324882, 2248653800, 324872786,
    3789837448, 3779000146, 527733939, 2844165793, 576499681, 1618787435, 2638888650, 57511068,
    2804627518, 2993670030, 481402236, 2810124845, 1416045214, 1723694191, 1214944572, 3188123783,
    1139185907, 3851015362, 1719652470, 1661343029, 3644307578, 3564178709, 1256656955, 46631590,
    4231317929, 3098958589, 1834956625, 2206185428, 3695688374, 3647957317, 1064098871,
    1739100906, 2579568980, 27974051, 2617466775, 964075233, 907049942, 4164146575, 3377168066,
    2524828266, 1083546008, 2992960953, 2260789066, 1543742095, 2843842831, 1375722284,
    3574521313, 110842534, 2310998251, 3076511734, 783145600, 1287776608, 3087144146, 305559823,
    2356293719, 3228441476, 1678938122, 3775814061, 1620283952, 2512027726, 1031432407, 962295099,
    3877418501, 968669928, 304126693, 3711291137, 3847527101, 494066767, 4050229756, 4169448589,
    671763915, 1095747781, 4006132710, 394725957, 200521654, 2715998750, 1477567673, 895171901,
    3370105999, 2684157455, 4153990023, 3966076501, 2043374409, 144443759, 6764556, 1611650045,
    1480956755, 1388276468, 4136518438, 1538041336, 266773992, 1623357516, 2267298390, 3183919402,
    1084292424, 2796136160, 2413448816, 2850375199, 3510894040, 2644778623, 3317288284,
    3697317540, 1465776787, 1843489446, 1416711171, 744701117, 1286781349, 3748640476, 861982119,
    2377742909, 1171768136, 2701877439, 3839724288, 2869791015, 2386067954, 2629214347, 955801623,
    3831079317]

/-! ## Certification of the seeded state

The pointwise certificates below connect the algorithmic definitions to the
literal word lists; checking a certificate only ever compares two adjacent
literals, so the kernel never has to chase the 623-deep data dependency of
the initialization chain. -/

set_option maxRecDepth 40000

theorem mtInitTail_eq_of_check (n : Nat) (L : List Nat) (prev i : Nat)
    (h : mtInitCheck n L prev i = true) : mtInitTail n prev i = L := by
  induction n generalizing L prev i with
  | zero =>
    cases L with
    | nil => rfl
    | cons v vs => simp [mtInitCheck] at h
  | succ n ih =>
    cases L with
    | nil => simp [mtInitCheck] at h
    | cons v vs =>
      simp only [mtInitCheck, Bool.and_eq_true, decide_eq_true_eq] at h
      simp only [mtInitTail]
      rw [← h.1] at *
      exact congrArg (v :: ·) (ih vs v (i + 1) h.2)

theorem mix1Pass_eq_of_check (xs vs : List Nat) (prev : Nat)
    (h : mix1Check xs vs prev = true) : mix1Pass xs prev = vs := by
  induction xs generalizing vs prev with
  | nil =>
    cases vs with
    | nil => rfl
    | cons v vs' => simp [mix1Check] at h
  | cons x xs ih =>
    cases vs with
    | nil => simp [mix1Check] at h
    | cons v vs' =>
      simp only [mix1Check, Bool.and_eq_true, decide_eq_true_eq] at h
      simp only [mix1Pass]
      rw [← h.1] at *
      exact congrArg (v :: ·) (ih vs' v h.2)

theorem mix2Pass_eq_of_check (xs vs : List Nat) (prev i : Nat)
    (h : mix2Check xs vs prev i = true) : mix2Pass xs prev i = vs := by
  induction xs generalizing vs prev i with
  | nil =>
    cases vs with
    | nil => rfl
    | cons v vs' => simp [mix2Check] at h
  | cons x xs ih =>
    cases vs with
    | nil => simp [mix2Check] at h
    | cons v vs' =>
      simp only [mix2Check, Bool.and_eq_true, decide_eq_true_eq] at h
      simp only [mix2Pass]
      rw [← h.1] at *
      exact congrArg (v :: ·) (ih vs' v (i + 1) h.2)

theorem mtInitTail623_eq : mtInitTail623 = mtInitTailLit :=
  mtInitTail_eq_of_check 623 mtInitTailLit 19650218 1 (by decide)

theorem mix1TailA_eq : mix1TailA = mix1TailLit := by
  rw [mix1TailA, mtInitTail623_eq]
  exact mix1Pass_eq_of_check mtInitTailLit mix1TailLit 19650218 (by decide)

theorem mix1W0_eq : mix1W0 = 1565245975 := by
  rw [mix1W0, mix1TailA_eq]; decide

theorem mix1W1_eq : mix1W1 = 534419183 := by
  rw [mix1W1, mix1TailA_eq, mix1W0_eq]; decide

theorem mix2RestA_eq : mix2RestA = mix2RestLit := by
  rw [mix2RestA, mix1TailA_eq, mix1W1_eq]
  exact mix2Pass_eq_of_check mix1TailLit.tail mix2RestLit 534419183 2 (by decide)

theorem mix2W0_eq : mix2W0 = 3831079317 := by
  rw [mix2W0, mix2RestA_eq]; decide

theorem mix2W1_eq : mix2W1 = 3564348608 := by
  rw [mix2W1, mix1W1_eq, mix2W0_eq]; decide

theorem mtStateSeed42_eq : mtStateSeed42 = 2147483648 :: 3564348608 :: mix2RestLit := by
  rw [mtStateSeed42, mix2W1_eq, mix2RestA_eq]

theorem getrandbits2_draw0 : getrandbits2Seed42 0 = 2 := by
  show mtGenrand mtStateSeed42 0 >>> 30 = 2
  rw [mtStateSeed42_eq]; decide

theorem getrandbits2_draw1 : getrandbits2Seed42 1 = 0 := by
  show mtGenrand mtStateSeed42 1 >>> 30 = 0
  rw [mtStateSeed42_eq]; decide

theorem nextRandint13_draw0 : nextRandint13 getrandbits2Seed42 64 0 = some (3, 1) := by
  rw [show (64 : Nat) = 63 + 1 from rfl, nextRandint13, getrandbits2_draw0]
  norm_num

theorem nextRandint13_draw1 : nextRandint13 getrandbits2Seed42 64 1 = some (1, 2) := by
  rw [show (64 : Nat) = 63 + 1 from rfl, nextRandint13, getrandbits2_draw1]
  norm_num

/-- C1 counterexample: in the single run of the retail script (seed 42), two
rows that carry the identical key `"Westport"` receive different device
identifiers — the first two `randint(1, 3)` draws after `random.seed(42)`
are 3 and 1 — so the retail generator does not map each `store_region`
value to one identifier within a run. -/
theorem c1_retail_same_key_two_ids :
    retail_device_ids_seed42 ["Westport", "Westport"] =
      ["did:lcore:retail-westport-store-3", "did:lcore:retail-westport-store-1"] ∧
    ("did:lcore:retail-westport-store-3" : String) ≠ "did:lcore:retail-westport-store-1" := by
  constructor
  · show create_retail_device_ids getrandbits2Seed42 ["Westport", "Westport"] 64 0 = _
    simp only [create_retail_device_ids, nextRandint13_draw0, nextRandint13_draw1]
    decide
  · decide

/-- C1 amended: the identifier assignment is a pure function of the input
column and the seed, so re-running with the same seed reproduces it, and the
agriculture generator assigns equal plot keys equal identifiers; but the
retail identifier of a row is `create_store_device_id` of the row's region
and the row's position in the fixed seed-42 draw stream, so one key can
receive different store numbers at different rows. -/
theorem c1_identity_generator_determinism :
    (∀ (gb2 : Nat → Nat) (regions : List String) (fuel j : Nat),
      create_retail_device_ids gb2 regions fuel j =
        List.zipWith create_store_device_id regions
          (randint_draw_list gb2 regions.length fuel j)) ∧
    (∀ (plots : List String) (i j : Nat),
      plots[i]? = plots[j]? →
        (AgricultureTransformation.create_device_ids plots)[i]? =
          (AgricultureTransformation.create_device_ids plots)[j]?) := by
  constructor
  · intro gb2 regions fuel j
    induction regions generalizing j with
    | nil => rfl
    | cons r rest ih =>
      simp only [create_retail_device_ids, List.length_cons, randint_draw_list]
      cases h : nextRandint13 gb2 fuel j with
      | none => simp
      | some vj => simp [ih vj.2]
  · intro plots i j h
    simp only [AgricultureTransformation.create_device_ids, List.getElem?_map, h]

/-- Witness for C1 at concrete inputs: the retail characterization at a
one-element run, and agriculture determinism for the key `"R1"` appearing at
rows 0 and 2. -/
theorem c1_identity_generator_determinism_witness :
    (create_retail_device_ids getrandbits2Seed42 ["Westport"] 64 0 =
      List.zipWith create_store_device_id ["Westport"]
        (randint_draw_list getrandbits2Seed42 (["Westport"] : List String).length 64 0)) ∧
    ((AgricultureTransformation.create_device_ids ["R1", "K7", "R1"])[0]? =
      (AgricultureTransformation.create_device_ids ["R1", "K7", "R1"])[2]?) :=
  ⟨c1_identity_generator_determinism.1 getrandbits2Seed42 ["Westport"] 64 0,
   c1_identity_generator_determinism.2 ["R1", "K7", "R1"] 0 2 (by decide)⟩

/-! ## Unit-parser lemmas -/

theorem takeDigits_append (ds rest : List Char) (hd : allDigits ds = true)
    (hr : notDigitStart rest = true) : takeDigits (ds ++ rest) = (ds, rest) := by
  induction ds with
  | nil =>
    cases rest with
    | nil => rfl
    | cons c cs =>
      simp only [notDigitStart, Bool.not_eq_true'] at hr
      simp [takeDigits, hr]
  | cons c ds ih =>
    simp only [allDigits, List.all_cons, Bool.and_eq_true] at hd
    have := ih hd.2
    simp [takeDigits, hd.1, this]

theorem dropSpaces_spaces (k : Nat) (u t : List Char) (hu : unitStartOK u = true) :
    dropSpaces (List.replicate k ' ' ++ (u ++ t)) = u ++ t := by
  induction k with
  | zero =>
    cases u with
    | nil => simp [unitStartOK] at hu
    | cons c us =>
      simp only [unitStartOK, Bool.and_eq_true, Bool.not_eq_true'] at hu
      simp [dropSpaces, hu.1.2]
  | succ k ih =>
    simpa [dropSpaces, isSpaceCh] using ih

theorem unitHere_append (u t : List Char) : unitHere u (u ++ t) = true := by
  induction u with
  | nil => rfl
  | cons c us ih => simp [unitHere, ih]

theorem notDigitStart_spaces_unit (k : Nat) (u t : List Char) (hu : unitStartOK u = true) :
    notDigitStart (List.replicate k ' ' ++ (u ++ t)) = true := by
  cases k with
  | zero =>
    cases u with
    | nil => simp [unitStartOK] at hu
    | cons c us =>
      simp only [unitStartOK, Bool.and_eq_true, Bool.not_eq_true'] at hu
      simp [notDigitStart, hu.1.1]
  | succ k => simp [List.replicate_succ, notDigitStart, isDigitCh]

theorem dotStart_spaces_unit (k : Nat) (u t : List Char) (hu : unitStartOK u = true) :
    dotStart (List.replicate k ' ' ++ (u ++ t)) = false := by
  cases k with
  | zero =>
    cases u with
    | nil => simp [unitStartOK] at hu
    | cons c us =>
      simp only [unitStartOK, Bool.and_eq_true, Bool.not_eq_true'] at hu
      simp [dotStart, hu.2]
  | succ k => simp [List.replicate_succ, dotStart]

theorem dashStart_digit (c : Char) (l : List Char) (h : isDigitCh c = true) :
    dashStart (c :: l) = false := by
  simp only [dashStart, decide_eq_false_iff_not]
  intro hc
  rw [hc] at h
  simp [isDigitCh] at h

theorem matchCore_render (ip : List Char) (fr : Option (List Char)) (u t : List Char) (k : Nat)
    (hip : allDigits ip = true) (hipne : ip ≠ [])
    (hfr : ∀ f, fr = some f → allDigits f = true ∧ f ≠ [])
    (hu : unitStartOK u = true) :
    matchCore u (renderBody ip fr ++ (List.replicate k ' ' ++ (u ++ t))) =
      some (renderBody ip fr) := by
  have hnd : notDigitStart (List.replicate k ' ' ++ (u ++ t)) = true :=
    notDigitStart_spaces_unit k u t hu
  have hds : dropSpaces (List.replicate k ' ' ++ (u ++ t)) = u ++ t :=
    dropSpaces_spaces k u t hu
  have hdot0 : dotStart (List.replicate k ' ' ++ (u ++ t)) = false :=
    dotStart_spaces_unit k u t hu
  have hipe : ip.isEmpty = false := by
    cases ip with
    | nil => exact absurd rfl hipne
    | cons c cs => rfl
  cases fr with
  | none =>
    have htk : takeDigits (ip ++ (List.replicate k ' ' ++ (u ++ t))) =
        (ip, List.replicate k ' ' ++ (u ++ t)) := takeDigits_append _ _ hip hnd
    simp [matchCore, renderBody, htk, hipe, hdot0, hds, unitHere_append]
  | some f =>
    obtain ⟨hf, hfne⟩ := hfr f rfl
    have hfe : f.isEmpty = false := by
      cases f with
      | nil => exact absurd rfl hfne
      | cons c cs => rfl
    have hassoc : renderBody ip (some f) ++ (List.replicate k ' ' ++ (u ++ t)) =
        ip ++ ('.' :: (f ++ (List.replicate k ' ' ++ (u ++ t)))) := by
      simp [renderBody]
    have htk : takeDigits (ip ++ ('.' :: (f ++ (List.replicate k ' ' ++ (u ++ t))))) =
        (ip, '.' :: (f ++ (List.replicate k ' ' ++ (u ++ t)))) :=
      takeDigits_append _ _ hip rfl
    have htk2 : takeDigits (f ++ (List.replicate k ' ' ++ (u ++ t))) =
        (f, List.replicate k ' ' ++ (u ++ t)) := takeDigits_append _ _ hf hnd
    rw [hassoc]
    simp [matchCore, htk, htk2, hipe, hfe, dotStart, hds, unitHere_append, renderBody]

theorem matchNumAt_render (sign neg : Bool) (ip : List Char) (fr : Option (List Char))
    (u t : List Char) (k : Nat)
    (hip : allDigits ip = true) (hipne : ip ≠ [])
    (hfr : ∀ f, fr = some f → allDigits f = true ∧ f ≠ [])
    (hu : unitStartOK u = true) (hneg : neg = true → sign = true) :
    matchNumAt sign u (renderNum neg ip fr ++ (List.replicate k ' ' ++ (u ++ t))) =
      some (renderNum neg ip fr) := by
  cases neg with
  | false =>
    have hdash : dashStart (renderBody ip fr ++ (List.replicate k ' ' ++ (u ++ t))) = false := by
      cases ip with
      | nil => exact absurd rfl hipne
      | cons c cs =>
        have hc : isDigitCh c = true := by
          simp only [allDigits, List.all_cons, Bool.and_eq_true] at hip
          exact hip.1
        simpa [renderBody] using dashStart_digit c _ hc
    simp [matchNumAt, renderNum, hdash, matchCore_render ip fr u t k hip hipne hfr hu]
  | true =>
    rw [hneg rfl]
    have hcons : renderNum true ip fr ++ (List.replicate k ' ' ++ (u ++ t)) =
        '-' :: (renderBody ip fr ++ (List.replicate k ' ' ++ (u ++ t))) := by
      simp [renderNum]
    rw [hcons]
    simp [matchNumAt, dashStart, matchCore_render ip fr u t k hip hipne hfr hu, renderNum]

theorem reSearchNum_of_head (sign : Bool) (u s n : List Char)
    (hs : s ≠ []) (h : matchNumAt sign u s = some n) : reSearchNum sign u s = some n := by
  cases s with
  | nil => exact absurd rfl hs
  | cons c cs => simp [reSearchNum, h]

theorem reSearchNum_render (sign neg : Bool) (ip : List Char) (fr : Option (List Char))
    (u t : List Char) (k : Nat)
    (hip : allDigits ip = true) (hipne : ip ≠ [])
    (hfr : ∀ f, fr = some f → allDigits f = true ∧ f ≠ [])
    (hu : unitStartOK u = true) (hneg : neg = true → sign = true) :
    reSearchNum sign u (renderNum neg ip fr ++ (List.replicate k ' ' ++ (u ++ t))) =
      some (renderNum neg ip fr) := by
  apply reSearchNum_of_head
  · cases neg with
    | false =>
      cases ip with
      | nil => exact absurd rfl hipne
      | cons c cs => simp [renderNum, renderBody]
    | true => simp [renderNum]
  · exact matchNumAt_render sign neg ip fr u t k hip hipne hfr hu hneg

theorem parseUnsigned_renderBody (ip : List Char) (fr : Option (List Char))
    (hip : allDigits ip = true)
    (hfr : ∀ f, fr = some f → allDigits f = true ∧ f ≠ []) :
    parseUnsigned (renderBody ip fr) =
      (digitsVal ip : ℚ) +
        (match fr with
          | none => 0
          | some f => (digitsVal f : ℚ) / (10 : ℚ) ^ f.length) := by
  cases fr with
  | none =>
    have htk : takeDigits ip = (ip, []) := by
      have := takeDigits_append ip [] hip rfl
      simpa using this
    simp [parseUnsigned, renderBody, htk, dotStart]
  | some f =>
    obtain ⟨hf, _⟩ := hfr f rfl
    have htk : takeDigits (ip ++ '.' :: f) = (ip, '.' :: f) := takeDigits_append _ _ hip rfl
    have htkf : takeDigits f = (f, []) := by
      have := takeDigits_append f [] hf rfl
      simpa using this
    simp [parseUnsigned, renderBody, htk, htkf, dotStart]

theorem parseNumeral_renderNum (neg : Bool) (ip : List Char) (fr : Option (List Char))
    (hip : allDigits ip = true) (hipne : ip ≠ [])
    (hfr : ∀ f, fr = some f → allDigits f = true ∧ f ≠ []) :
    parseNumeral (renderNum neg ip fr) = numValQ neg ip fr := by
  cases neg with
  | false =>
    have hdash : dashStart (renderBody ip fr) = false := by
      cases ip with
      | nil => exact absurd rfl hipne
      | cons c cs =>
        have hc : isDigitCh c = true := by
          simp only [allDigits, List.all_cons, Bool.and_eq_true] at hip
          exact hip.1
        simpa [renderBody] using dashStart_digit c _ hc
    simp [parseNumeral, renderNum, hdash, parseUnsigned_renderBody ip fr hip hfr, numValQ]
    cases fr <;> rfl
  | true =>
    simp [parseNumeral, renderNum, dashStart, parseUnsigned_renderBody ip fr hip hfr, numValQ]
    cases fr <;> rfl

theorem mem_of_mem_takeDigits_snd (c : Char) (l : List Char)
    (h : c ∈ (takeDigits l).2) : c ∈ l := by
  induction l with
  | nil => simp [takeDigits] at h
  | cons x xs ih =>
    by_cases hx : isDigitCh x = true
    · simp [takeDigits, hx] at h
      exact List.mem_cons_of_mem x (ih h)
    · simp only [takeDigits, Bool.not_eq_true] at h
      rw [if_neg (by simp [hx])] at h
      exact h

theorem mem_of_mem_dropSpaces (c : Char) (l : List Char)
    (h : c ∈ dropSpaces l) : c ∈ l := by
  induction l with
  | nil => simp [dropSpaces] at h
  | cons x xs ih =>
    by_cases hx : isSpaceCh x = true
    · simp only [dropSpaces, if_pos hx] at h
      exact List.mem_cons_of_mem x (ih h)
    · simp only [dropSpaces, Bool.not_eq_true] at h
      rw [if_neg (by simp [hx])] at h
      exact h

theorem mem_of_unitHere (u0 : Char) (us l : List Char)
    (h : unitHere (u0 :: us) l = true) : u0 ∈ l := by
  cases l with
  | nil => simp [unitHere] at h
  | cons c cs =>
    simp only [unitHere, Bool.and_eq_true, decide_eq_true_eq] at h
    rw [h.1]
    exact List.mem_cons_self c cs

theorem mem_of_matchCore (u0 : Char) (us s n : List Char)
    (h : matchCore (u0 :: us) s = some n) : u0 ∈ s := by
  simp only [matchCore] at h
  by_cases h1 : (takeDigits s).1.isEmpty = true
  · simp [h1] at h
  · rw [if_neg h1] at h
    by_cases h2 : dotStart (takeDigits s).2 = true
    · rw [if_pos h2] at h
      by_cases h3 : (takeDigits (takeDigits s).2.tail).1.isEmpty = true
      · rw [if_pos h3] at h
        by_cases h4 : unitHere (u0 :: us) (dropSpaces (takeDigits s).2) = true
        · exact mem_of_mem_takeDigits_snd _ _
            (mem_of_mem_dropSpaces _ _ (mem_of_unitHere _ _ _ h4))
        · simp [h4] at h
      · rw [if_neg h3] at h
        by_cases h5 : unitHere (u0 :: us) (dropSpaces (takeDigits (takeDigits s).2.tail).2) = true
        · have hm := mem_of_mem_dropSpaces _ _ (mem_of_unitHere _ _ _ h5)
          have hm2 := mem_of_mem_takeDigits_snd _ _ hm
          have hm3 : u0 ∈ (takeDigits s).2 := by
            cases hrest : (takeDigits s).2 with
            | nil => rw [hrest] at hm2; simp at hm2
            | cons r rs =>
              rw [hrest] at hm2
              exact List.mem_cons_of_mem r hm2
          exact mem_of_mem_takeDigits_snd _ _ hm3
        · rw [if_neg h5] at h
          by_cases h6 : unitHere (u0 :: us) (dropSpaces (takeDigits s).2) = true
          · exact mem_of_mem_takeDigits_snd _ _
              (mem_of_mem_dropSpaces _ _ (mem_of_unitHere _ _ _ h6))
          · simp [h6] at h
    · rw [if_neg h2] at h
      by_cases h7 : unitHere (u0 :: us) (dropSpaces (takeDigits s).2) = true
      · exact mem_of_mem_takeDigits_snd _ _
          (mem_of_mem_dropSpaces _ _ (mem_of_unitHere _ _ _ h7))
      · simp [h7] at h

theorem mem_of_matchNumAt (sign : Bool) (u0 : Char) (us s n : List Char)
    (h : matchNumAt sign (u0 :: us) s = some n) : u0 ∈ s := by
  simp only [matchNumAt] at h
  by_cases hd : dashStart s = true
  · rw [if_pos hd] at h
    cases sign with
    | false => simp at h
    | true =>
      rw [if_pos rfl] at h
      cases hmc : matchCore (u0 :: us) s.tail with
      | none => rw [hmc] at h; simp at h
      | some m =>
        have hmem := mem_of_matchCore u0 us s.tail m hmc
        cases s with
        | nil => simp at hmem
        | cons c cs => exact List.mem_cons_of_mem c hmem
  · rw [if_neg hd] at h
    exact mem_of_matchCore u0 us s n h

theorem mem_of_reSearchNum (sign : Bool) (u0 : Char) (us s n : List Char)
    (h : reSearchNum sign (u0 :: us) s = some n) : u0 ∈ s := by
  induction s with
  | nil => simp [reSearchNum] at h
  | cons c cs ih =>
    simp only [reSearchNum] at h
    cases hm : matchNumAt sign (u0 :: us) (c :: cs) with
    | some m =>
      exact mem_of_matchNumAt sign u0 us (c :: cs) m hm
    | none =>
      rw [hm] at h
      exact List.mem_cons_of_mem c (ih h)

theorem reSearchNum_eq_none_of_not_mem (sign : Bool) (u0 : Char) (us s : List Char)
    (h : u0 ∉ s) : reSearchNum sign (u0 :: us) s = none := by
  cases hr : reSearchNum sign (u0 :: us) s with
  | none => rfl
  | some n => exact absurd (mem_of_reSearchNum sign u0 us s n hr) h

theorem matchCore_none_of_notDigitStart (u s : List Char) (h : notDigitStart s = true) :
    matchCore u s = none := by
  cases s with
  | nil => simp [matchCore, takeDigits]
  | cons c cs =>
    simp only [notDigitStart, Bool.not_eq_true'] at h
    simp [matchCore, takeDigits, h]

theorem notDigitStart_of_no_digit (s : List Char) (h : ∀ c ∈ s, isDigitCh c = false) :
    notDigitStart s = true := by
  cases s with
  | nil => rfl
  | cons c cs => simp [notDigitStart, h c (List.mem_cons_self c cs)]

theorem reSearchNum_none_of_no_digit (sign : Bool) (u s : List Char)
    (h : ∀ c ∈ s, isDigitCh c = false) : reSearchNum sign u s = none := by
  induction s with
  | nil => rfl
  | cons c cs ih =>
    have hmn : matchNumAt sign u (c :: cs) = none := by
      simp only [matchNumAt]
      by_cases hd : dashStart (c :: cs) = true
      · rw [if_pos hd]
        have : matchCore u cs = none :=
          matchCore_none_of_notDigitStart u cs
            (notDigitStart_of_no_digit cs (fun x hx => h x (List.mem_cons_of_mem c hx)))
        cases sign <;> simp [this]
      · rw [if_neg hd]
        exact matchCore_none_of_notDigitStart u (c :: cs)
          (notDigitStart_of_no_digit _ h)
    simp only [reSearchNum, hmn]
    exact ih fun x hx => h x (List.mem_cons_of_mem c hx)

theorem takeDigits_fst_allDigits (l : List Char) : allDigits (takeDigits l).1 = true := by
  induction l with
  | nil => rfl
  | cons c cs ih =>
    by_cases hc : isDigitCh c = true
    · simp only [takeDigits, if_pos hc, allDigits, List.all_cons, Bool.and_eq_true]
      exact ⟨hc, by simpa [allDigits] using ih⟩
    · simp only [takeDigits]
      rw [if_neg hc]
      rfl

theorem ne_nil_of_isEmpty_eq_false {l : List Char} (h : l.isEmpty = false) : l ≠ [] := by
  cases l with
  | nil => simp at h
  | cons c cs => simp

theorem matchCore_shape (u s n : List Char) (h : matchCore u s = some n) :
    ∃ ds fs, allDigits ds = true ∧ ds ≠ [] ∧
      (n = ds ∨ (allDigits fs = true ∧ fs ≠ [] ∧ n = ds ++ '.' :: fs)) := by
  simp only [matchCore] at h
  by_cases h1 : (takeDigits s).1.isEmpty = true
  · simp [h1] at h
  · rw [if_neg h1] at h
    have hds : allDigits (takeDigits s).1 = true := takeDigits_fst_allDigits s
    have hdsne : (takeDigits s).1 ≠ [] :=
      ne_nil_of_isEmpty_eq_false (Bool.not_eq_true _ ▸ h1)
    by_cases h2 : dotStart (takeDigits s).2 = true
    · rw [if_pos h2] at h
      by_cases h3 : (takeDigits (takeDigits s).2.tail).1.isEmpty = true
      · rw [if_pos h3] at h
        by_cases h4 : unitHere u (dropSpaces (takeDigits s).2) = true
        · rw [if_pos h4] at h
          exact ⟨(takeDigits s).1, [], hds, hdsne, Or.inl (Option.some.inj h).symm⟩
        · simp [h4] at h
      · rw [if_neg h3] at h
        have hfs : allDigits (takeDigits (takeDigits s).2.tail).1 = true :=
          takeDigits_fst_allDigits _
        have hfsne : (takeDigits (takeDigits s).2.tail).1 ≠ [] :=
          ne_nil_of_isEmpty_eq_false (Bool.not_eq_true _ ▸ h3)
        by_cases h5 : unitHere u (dropSpaces (takeDigits (takeDigits s).2.tail).2) = true
        · rw [if_pos h5] at h
          exact ⟨(takeDigits s).1, (takeDigits (takeDigits s).2.tail).1, hds, hdsne,
            Or.inr ⟨hfs, hfsne, (Option.some.inj h).symm⟩⟩
        · rw [if_neg h5] at h
          by_cases h6 : unitHere u (dropSpaces (takeDigits s).2) = true
          · rw [if_pos h6] at h
            exact ⟨(takeDigits s).1, [], hds, hdsne, Or.inl (Option.some.inj h).symm⟩
          · simp [h6] at h
    · rw [if_neg h2] at h
      by_cases h7 : unitHere u (dropSpaces (takeDigits s).2) = true
      · rw [if_pos h7] at h
        exact ⟨(takeDigits s).1, [], hds, hdsne, Or.inl (Option.some.inj h).symm⟩
      · simp [h7] at h

theorem reSearchNum_shape_nosign (u s n : List Char) (h : reSearchNum false u s = some n) :
    ∃ ds fs, allDigits ds = true ∧ ds ≠ [] ∧
      (n = ds ∨ (allDigits fs = true ∧ fs ≠ [] ∧ n = ds ++ '.' :: fs)) := by
  induction s with
  | nil => simp [reSearchNum] at h
  | cons c cs ih =>
    simp only [reSearchNum] at h
    cases hm : matchNumAt false u (c :: cs) with
    | some m =>
      rw [hm] at h
      have hn : m = n := Option.some.inj h
      subst hn
      simp only [matchNumAt] at hm
      by_cases hd : dashStart (c :: cs) = true
      · rw [if_pos hd] at hm
        simp at hm
      · rw [if_neg hd] at hm
        exact matchCore_shape u (c :: cs) m hm
    | none =>
      rw [hm] at h
      exact ih h

theorem digit_char_of_val_zero (c : Char) (hc : isDigitCh c = true)
    (hv : digitVal c = 0) : c = '0' := by
  simp only [isDigitCh, Bool.or_eq_true, decide_eq_true_eq] at hc
  rcases hc with ((((((((h | h) | h) | h) | h) | h) | h) | h) | h) | h <;> subst h <;>
    first
    | rfl
    | (exfalso; revert hv; decide)

theorem digitsVal_zero_iff (l : List Char) (h : allDigits l = true) :
    digitsVal l = 0 ↔ ∀ c ∈ l, c = '0' := by
  induction l with
  | nil => simp [digitsVal]
  | cons c cs ih =>
    simp only [allDigits, List.all_cons, Bool.and_eq_true] at h
    have hrec := ih (by simpa [allDigits] using h.2)
    rw [show digitsVal (c :: cs) = digitVal c * 10 ^ cs.length + digitsVal cs from rfl]
    constructor
    · intro hz
      have h1 : digitVal c * 10 ^ cs.length = 0 ∧ digitsVal cs = 0 := Nat.add_eq_zero.mp hz
      have h2 : digitVal c = 0 := by
        rcases Nat.mul_eq_zero.mp h1.1 with h' | h'
        · exact h'
        · exact absurd h' (pow_ne_zero _ (by norm_num))
      intro x hx
      rcases List.mem_cons.mp hx with rfl | hx'
      · exact digit_char_of_val_zero x h.1 h2
      · exact (hrec.mp h1.2) x hx'
    · intro hall
      have hc0 : c = '0' := hall c (List.mem_cons_self c cs)
      have hv : digitVal c = 0 := by rw [hc0]; decide
      have hcs : digitsVal cs = 0 :=
        hrec.mpr fun x hx => hall x (List.mem_cons_of_mem c hx)
      simp [hv, hcs]

theorem mem_renderNum (c : Char) (neg : Bool) (ip : List Char) (fr : Option (List Char))
    (hip : allDigits ip = true)
    (hfr : ∀ f, fr = some f → allDigits f = true ∧ f ≠ [])
    (h : c ∈ renderNum neg ip fr) : c = '-' ∨ c = '.' ∨ isDigitCh c = true := by
  have hdig : ∀ x ∈ ip, isDigitCh x = true := List.all_eq_true.mp hip
  cases neg with
  | false =>
    cases hf : fr with
    | none =>
      rw [hf] at h
      simp only [renderNum, renderBody, List.mem_append, List.mem_cons, List.not_mem_nil,
        List.nil_append, List.append_nil, false_or, or_false, List.mem_singleton,
        Bool.false_eq_true, if_false, if_true] at h
      exact Or.inr (Or.inr (hdig c h))
    | some f =>
      rw [hf] at h
      simp only [renderNum, renderBody, List.mem_append, List.mem_cons, List.not_mem_nil,
        List.nil_append, List.append_nil, false_or, or_false, List.mem_singleton,
        Bool.false_eq_true, if_false, if_true] at h
      rcases h with h | h | h
      · exact Or.inr (Or.inr (hdig c h))
      · exact Or.inr (Or.inl h)
      · exact Or.inr (Or.inr (List.all_eq_true.mp (hfr f hf).1 c h))
  | true =>
    cases hf : fr with
    | none =>
      rw [hf] at h
      simp only [renderNum, renderBody, List.mem_append, List.mem_cons, List.not_mem_nil,
        List.nil_append, List.append_nil, false_or, or_false, List.mem_singleton,
        Bool.false_eq_true, if_false, if_true] at h
      rcases h with h | h
      · exact Or.inl h
      · exact Or.inr (Or.inr (hdig c h))
    | some f =>
      rw [hf] at h
      simp only [renderNum, renderBody, List.mem_append, List.mem_cons, List.not_mem_nil,
        List.nil_append, List.append_nil, false_or, or_false, List.mem_singleton,
        Bool.false_eq_true, if_false, if_true] at h
      rcases h with h | h | h | h
      · exact Or.inl h
      · exact Or.inr (Or.inr (hdig c h))
      · exact Or.inr (Or.inl h)
      · exact Or.inr (Or.inr (List.all_eq_true.mp (hfr f hf).1 c h))

theorem extract_signal_strength_render (neg : Bool) (ip : List Char) (fr : Option (List Char))
    (k : Nat) (hip : allDigits ip = true) (hipne : ip ≠ [])
    (hfr : ∀ f, fr = some f → allDigits f = true ∧ f ≠ []) :
    extract_signal_strength
        (some (String.mk (renderNum neg ip fr ++ (List.replicate k ' ' ++ "dBm".data)))) =
      some (numValQ neg ip fr) := by
  have h := reSearchNum_render true neg ip fr ['d', 'B', 'm'] [] k hip hipne hfr (by decide)
    (fun _ => rfl)
  rw [List.append_nil] at h
  simp only [extract_signal_strength]
  rw [h, Option.map_some', parseNumeral_renderNum neg ip fr hip hipne hfr]

theorem extract_bandwidth_mbps_render (ip : List Char) (fr : Option (List Char))
    (k : Nat) (hip : allDigits ip = true) (hipne : ip ≠ [])
    (hfr : ∀ f, fr = some f → allDigits f = true ∧ f ≠ []) :
    extract_bandwidth
        (some (String.mk (renderNum false ip fr ++ (List.replicate k ' ' ++ "Mbps".data)))) =
      some (numValQ false ip fr) := by
  have h := reSearchNum_render false false ip fr ['M', 'b', 'p', 's'] [] k hip hipne hfr
    (by decide) (fun hc => by simp at hc)
  rw [List.append_nil] at h
  simp only [extract_bandwidth]
  rw [h]
  show some (parseNumeral (renderNum false ip fr)) = some (numValQ false ip fr)
  rw [parseNumeral_renderNum false ip fr hip hipne hfr]

theorem extract_bandwidth_kbps_render (ip : List Char) (fr : Option (List Char))
    (k : Nat) (hip : allDigits ip = true) (hipne : ip ≠ [])
    (hfr : ∀ f, fr = some f → allDigits f = true ∧ f ≠ []) :
    extract_bandwidth
        (some (String.mk (renderNum false ip fr ++ (List.replicate k ' ' ++ "Kbps".data)))) =
      some (numValQ false ip fr / 1000) := by
  have hM : 'M' ∉ renderNum false ip fr ++ (List.replicate k ' ' ++ "Kbps".data) := by
    intro hmem
    rcases List.mem_append.mp hmem with h | h
    · rcases mem_renderNum 'M' false ip fr hip hfr h with h' | h' | h' <;>
        exact absurd h' (by decide)
    · rcases List.mem_append.mp h with h' | h'
      · have := List.eq_of_mem_replicate h'
        simp at this
      · simp at h'
  have hnone : reSearchNum false ['M', 'b', 'p', 's']
      (renderNum false ip fr ++ (List.replicate k ' ' ++ "Kbps".data)) = none :=
    reSearchNum_eq_none_of_not_mem false 'M' ['b', 'p', 's'] _ hM
  have h := reSearchNum_render false false ip fr ['K', 'b', 'p', 's'] [] k hip hipne hfr
    (by decide) (fun hc => by simp at hc)
  rw [List.append_nil] at h
  simp only [extract_bandwidth]
  rw [hnone, h]
  show some (parseNumeral (renderNum false ip fr) / 1000) = some (numValQ false ip fr / 1000)
  rw [parseNumeral_renderNum false ip fr hip hipne hfr]

theorem extract_percentage_render (ip : List Char) (fr : Option (List Char))
    (k : Nat) (hip : allDigits ip = true) (hipne : ip ≠ [])
    (hfr : ∀ f, fr = some f → allDigits f = true ∧ f ≠ []) :
    extract_percentage
        (some (String.mk (renderNum false ip fr ++ (List.replicate k ' ' ++ "%".data)))) =
      some (numValQ false ip fr) := by
  have h := reSearchNum_render false false ip fr ['%'] [] k hip hipne hfr
    (by decide) (fun hc => by simp at hc)
  rw [List.append_nil] at h
  simp only [extract_percentage]
  rw [h, Option.map_some', parseNumeral_renderNum false ip fr hip hipne hfr]

theorem parseNumeral_digits (ds : List Char) (hd : allDigits ds = true) (hdne : ds ≠ []) :
    parseNumeral ds = (digitsVal ds : ℚ) := by
  have hr : renderNum false ds none = ds := by simp [renderNum, renderBody]
  have := parseNumeral_renderNum false ds none hd hdne (fun f hf => by cases hf)
  rw [hr] at this
  rw [this]
  simp [numValQ]

theorem parseNumeral_digits_frac (ds fs : List Char)
    (hd : allDigits ds = true) (hdne : ds ≠ [])
    (hf : allDigits fs = true) (hfne : fs ≠ []) :
    parseNumeral (ds ++ '.' :: fs) = (digitsVal ds : ℚ) + (digitsVal fs : ℚ) / (10 : ℚ) ^ fs.length := by
  have hr : renderNum false ds (some fs) = ds ++ '.' :: fs := by simp [renderNum, renderBody]
  have := parseNumeral_renderNum false ds (some fs) hd hdne
    (fun f hf' => by rw [← Option.some.inj hf']; exact ⟨hf, hfne⟩)
  rw [hr] at this
  rw [this]
  simp [numValQ]

/-- C2: for every numeral token N (digits with an optional decimal fraction;
for dBm also an optional sign), the string `N Mbps` parses to the value of N,
`N Kbps` to that value divided by 1000, and `N dBm` to the signed value of N;
in particular `"100 Kbps"` yields 0.1 and `"-75 dBm"` yields -75.  Machine
floats are modelled as exact rationals. -/
theorem c2_unit_parser_scale :
    (∀ (ip : List Char) (fr : Option (List Char)),
      allDigits ip = true → ip ≠ [] →
      (∀ f, fr = some f → allDigits f = true ∧ f ≠ []) →
      extract_bandwidth
          (some (String.mk (renderNum false ip fr ++ (List.replicate 1 ' ' ++ "Mbps".data)))) =
        some (numValQ false ip fr) ∧
      extract_bandwidth
          (some (String.mk (renderNum false ip fr ++ (List.replicate 1 ' ' ++ "Kbps".data)))) =
        some (numValQ false ip fr / 1000) ∧
      ∀ neg, extract_signal_strength
          (some (String.mk (renderNum neg ip fr ++ (List.replicate 1 ' ' ++ "dBm".data)))) =
        some (numValQ neg ip fr)) ∧
    extract_bandwidth (some "100 Kbps") = some (1 / 10) ∧
    extract_signal_strength (some "-75 dBm") = some (-75) := by
  refine ⟨fun ip fr hip hipne hfr => ⟨?_, ?_, fun neg => ?_⟩, ?_, ?_⟩
  · exact extract_bandwidth_mbps_render ip fr 1 hip hipne hfr
  · exact extract_bandwidth_kbps_render ip fr 1 hip hipne hfr
  · exact extract_signal_strength_render neg ip fr 1 hip hipne hfr
  · have h := extract_bandwidth_kbps_render ['1', '0', '0'] none 1 (by decide) (by decide)
      (fun f hf => by cases hf)
    rw [show ("100 Kbps" : String) =
      String.mk (renderNum false ['1', '0', '0'] none ++
        (List.replicate 1 ' ' ++ "Kbps".data)) from rfl]
    rw [h]
    have hv : digitsVal ['1', '0', '0'] = 100 := by decide
    simp [numValQ, hv]
    norm_num
  · have h := extract_signal_strength_render true ['7', '5'] none 1 (by decide) (by decide)
      (fun f hf => by cases hf)
    rw [show ("-75 dBm" : String) =
      String.mk (renderNum true ['7', '5'] none ++
        (List.replicate 1 ' ' ++ "dBm".data)) from rfl]
    rw [h]
    have hv : digitsVal ['7', '5'] = 75 := by decide
    simp [numValQ, hv]

/-- Witness for C2: the numeral 100 with Mbps and Kbps, and the signed
fractional numeral -7.5 with dBm. -/
theorem c2_unit_parser_scale_witness :
    extract_bandwidth
        (some (String.mk (renderNum false ['1', '0', '0'] none ++
          (List.replicate 1 ' ' ++ "Mbps".data)))) =
      some (numValQ false ['1', '0', '0'] none) ∧
    extract_bandwidth
        (some (String.mk (renderNum false ['1', '0', '0'] none ++
          (List.replicate 1 ' ' ++ "Kbps".data)))) =
      some (numValQ false ['1', '0', '0'] none / 1000) ∧
    extract_signal_strength
        (some (String.mk (renderNum true ['7'] (some ['5']) ++
          (List.replicate 1 ' ' ++ "dBm".data)))) =
      some (numValQ true ['7'] (some ['5'])) := by
  have h := c2_unit_parser_scale.1 ['1', '0', '0'] none (by decide) (by decide)
    (fun f hf => by cases hf)
  have h2 := c2_unit_parser_scale.1 ['7'] (some ['5']) (by decide) (by decide)
    (fun f hf => by rw [← Option.some.inj hf]; exact ⟨by decide, by decide⟩)
  exact ⟨h.1, h.2.1, h2.2.2 true⟩

/-- C4 counterexample: the unit recognition is case-sensitive —
`"100 Mbps"` parses to 100 but `"100 MBPS"`, which differs only in the case
of the unit token, parses to missing. -/
theorem c4_case_sensitivity_counterexample :
    extract_bandwidth (some "100 Mbps") = some 100 ∧
    extract_bandwidth (some "100 MBPS") = none ∧
    (some (100 : ℚ) ≠ (none : Option ℚ)) := by
  refine ⟨?_, by decide, by simp⟩
  have h := extract_bandwidth_mbps_render ['1', '0', '0'] none 1 (by decide) (by decide)
    (fun f hf => by cases hf)
  rw [show ("100 Mbps" : String) =
    String.mk (renderNum false ['1', '0', '0'] none ++
      (List.replicate 1 ' ' ++ "Mbps".data)) from rfl]
  rw [h]
  have hv : digitsVal ['1', '0', '0'] = 100 := by decide
  simp [numValQ, hv]

/-- C4 amended: the numeric capture accepts an optional decimal point, and an
optional sign in the signal-strength pattern only; any amount of whitespace
between numeral and unit gives the same value (the result below does not
depend on `k`); unit recognition is case-sensitive, so strings differing in
the case of the unit token may parse differently. -/
theorem c4_numeric_capture_spacing :
    ∀ (ip : List Char) (fr : Option (List Char)) (k : Nat),
      allDigits ip = true → ip ≠ [] →
      (∀ f, fr = some f → allDigits f = true ∧ f ≠ []) →
      extract_bandwidth
          (some (String.mk (renderNum false ip fr ++ (List.replicate k ' ' ++ "Mbps".data)))) =
        some (numValQ false ip fr) ∧
      extract_percentage
          (some (String.mk (renderNum false ip fr ++ (List.replicate k ' ' ++ "%".data)))) =
        some (numValQ false ip fr) ∧
      ∀ neg, extract_signal_strength
          (some (String.mk (renderNum neg ip fr ++ (List.replicate k ' ' ++ "dBm".data)))) =
        some (numValQ neg ip fr) :=
  fun ip fr k hip hipne hfr =>
    ⟨extract_bandwidth_mbps_render ip fr k hip hipne hfr,
     extract_percentage_render ip fr k hip hipne hfr,
     fun neg => extract_signal_strength_render neg ip fr k hip hipne hfr⟩

/-- Witness for C4: the fractional numeral 12.5 with no space and with three
spaces before the unit, giving the same value both ways. -/
theorem c4_numeric_capture_spacing_witness :
    extract_bandwidth
        (some (String.mk (renderNum false ['1', '2'] (some ['5']) ++
          (List.replicate 0 ' ' ++ "Mbps".data)))) =
      some (numValQ false ['1', '2'] (some ['5'])) ∧
    extract_bandwidth
        (some (String.mk (renderNum false ['1', '2'] (some ['5']) ++
          (List.replicate 3 ' ' ++ "Mbps".data)))) =
      some (numValQ false ['1', '2'] (some ['5'])) := by
  have hfr : ∀ f, (some ['5'] : Option (List Char)) = some f → allDigits f = true ∧ f ≠ [] :=
    fun f hf => by rw [← Option.some.inj hf]; exact ⟨by decide, by decide⟩
  exact ⟨(c4_numeric_capture_spacing ['1', '2'] (some ['5']) 0 (by decide) (by decide) hfr).1,
         (c4_numeric_capture_spacing ['1', '2'] (some ['5']) 3 (by decide) (by decide) hfr).1⟩

theorem extract_latency_render (ip : List Char) (fr : Option (List Char))
    (k : Nat) (hip : allDigits ip = true) (hipne : ip ≠ [])
    (hfr : ∀ f, fr = some f → allDigits f = true ∧ f ≠ []) :
    extract_latency
        (some (String.mk (renderNum false ip fr ++ (List.replicate k ' ' ++ "ms".data)))) =
      some (numValQ false ip fr) := by
  have h := reSearchNum_render false false ip fr ['m', 's'] [] k hip hipne hfr
    (by decide) (fun hc => by simp at hc)
  rw [List.append_nil] at h
  simp only [extract_latency]
  rw [h, Option.map_some', parseNumeral_renderNum false ip fr hip hipne hfr]

theorem takeDigits_snd_suffix (l : List Char) : (takeDigits l).2 <:+ l := by
  induction l with
  | nil => exact List.suffix_refl []
  | cons c cs ih =>
    by_cases hc : isDigitCh c = true
    · simp only [takeDigits, if_pos hc]
      exact ih.trans (List.suffix_cons c cs)
    · simp only [takeDigits]
      rw [if_neg hc]

theorem dropSpaces_suffix (l : List Char) : dropSpaces l <:+ l := by
  induction l with
  | nil => exact List.suffix_refl []
  | cons c cs ih =>
    by_cases hc : isSpaceCh c = true
    · simp only [dropSpaces, if_pos hc]
      exact ih.trans (List.suffix_cons c cs)
    · simp only [dropSpaces]
      rw [if_neg hc]

theorem unitOccursIn_of_suffix (u l s : List Char) (hsuf : l <:+ s)
    (h : unitHere u l = true) : unitOccursIn u s = true := by
  obtain ⟨t, rfl⟩ := hsuf
  induction t with
  | nil =>
    cases l with
    | nil => simpa [unitOccursIn] using h
    | cons c cs => simp [unitOccursIn, h]
  | cons a t ih => simp [unitOccursIn, ih]

theorem matchCore_occurs (u s n : List Char) (h : matchCore u s = some n) :
    unitOccursIn u s = true := by
  have hsuf1 : dropSpaces (takeDigits s).2 <:+ s :=
    (dropSpaces_suffix _).trans (takeDigits_snd_suffix s)
  have hsuf2 : dropSpaces (takeDigits (takeDigits s).2.tail).2 <:+ s :=
    (dropSpaces_suffix _).trans ((takeDigits_snd_suffix _).trans
      ((List.tail_suffix _).trans (takeDigits_snd_suffix s)))
  simp only [matchCore] at h
  by_cases h1 : (takeDigits s).1.isEmpty = true
  · simp [h1] at h
  · rw [if_neg h1] at h
    by_cases h2 : dotStart (takeDigits s).2 = true
    · rw [if_pos h2] at h
      by_cases h3 : (takeDigits (takeDigits s).2.tail).1.isEmpty = true
      · rw [if_pos h3] at h
        by_cases h4 : unitHere u (dropSpaces (takeDigits s).2) = true
        · exact unitOccursIn_of_suffix u _ s hsuf1 h4
        · simp [h4] at h
      · rw [if_neg h3] at h
        by_cases h5 : unitHere u (dropSpaces (takeDigits (takeDigits s).2.tail).2) = true
        · exact unitOccursIn_of_suffix u _ s hsuf2 h5
        · rw [if_neg h5] at h
          by_cases h6 : unitHere u (dropSpaces (takeDigits s).2) = true
          · exact unitOccursIn_of_suffix u _ s hsuf1 h6
          · simp [h6] at h
    · rw [if_neg h2] at h
      by_cases h7 : unitHere u (dropSpaces (takeDigits s).2) = true
      · exact unitOccursIn_of_suffix u _ s hsuf1 h7
      · simp [h7] at h

theorem matchNumAt_occurs (sign : Bool) (u s n : List Char)
    (h : matchNumAt sign u s = some n) : unitOccursIn u s = true := by
  simp only [matchNumAt] at h
  by_cases hd : dashStart s = true
  · rw [if_pos hd] at h
    cases sign with
    | false => simp at h
    | true =>
      rw [if_pos rfl] at h
      cases hmc : matchCore u s.tail with
      | none => rw [hmc] at h; simp at h
      | some m =>
        have hocc := matchCore_occurs u s.tail m hmc
        cases s with
        | nil => exact hocc
        | cons c cs =>
          have hocc' : unitOccursIn u cs = true := hocc
          show unitOccursIn u (c :: cs) = true
          simp [unitOccursIn, hocc']
  · rw [if_neg hd] at h
    exact matchCore_occurs u s n h

theorem reSearchNum_occurs (sign : Bool) (u s n : List Char)
    (h : reSearchNum sign u s = some n) : unitOccursIn u s = true := by
  induction s with
  | nil => simp [reSearchNum] at h
  | cons c cs ih =>
    simp only [reSearchNum] at h
    cases hm : matchNumAt sign u (c :: cs) with
    | some m =>
      exact matchNumAt_occurs sign u (c :: cs) m hm
    | none =>
      rw [hm] at h
      simp [unitOccursIn, ih h]

theorem reSearchNum_none_of_not_occurs (sign : Bool) (u s : List Char)
    (h : unitOccursIn u s = false) : reSearchNum sign u s = none := by
  cases hr : reSearchNum sign u s with
  | none => rfl
  | some n =>
    rw [reSearchNum_occurs sign u s n hr] at h
    exact absurd h (by simp)

theorem capture_zero_chars (u sd n : List Char)
    (hsearch : reSearchNum false u sd = some n) (hval : parseNumeral n = 0) :
    ∀ c ∈ n, c = '0' ∨ c = '.' := by
  obtain ⟨ds, fs, hd, hdne, hshape⟩ := reSearchNum_shape_nosign _ _ _ hsearch
  rcases hshape with heq | ⟨hf, hfne, heq⟩
  · rw [heq] at hval ⊢
    rw [parseNumeral_digits ds hd hdne] at hval
    have : digitsVal ds = 0 := Nat.cast_eq_zero.mp hval
    intro c hc
    exact Or.inl ((digitsVal_zero_iff ds hd).mp this c hc)
  · rw [heq] at hval ⊢
    rw [parseNumeral_digits_frac ds fs hd hdne hf hfne] at hval
    have ha : (0 : ℚ) ≤ (digitsVal ds : ℚ) := Nat.cast_nonneg _
    have hb : (0 : ℚ) ≤ (digitsVal fs : ℚ) / (10 : ℚ) ^ fs.length := by positivity
    have ha0 : (digitsVal ds : ℚ) = 0 := by linarith
    have hb0 : (digitsVal fs : ℚ) / (10 : ℚ) ^ fs.length = 0 := by linarith
    have hds0 : digitsVal ds = 0 := Nat.cast_eq_zero.mp ha0
    have hfs0 : digitsVal fs = 0 := by
      rcases div_eq_zero_iff.mp hb0 with h' | h'
      · exact Nat.cast_eq_zero.mp h'
      · exact absurd h' (by positivity)
    intro c hc
    rcases List.mem_append.mp hc with h' | h'
    · exact Or.inl ((digitsVal_zero_iff ds hd).mp hds0 c h')
    · rcases List.mem_cons.mp h' with rfl | h''
      · exact Or.inr rfl
      · exact Or.inl ((digitsVal_zero_iff fs hf).mp hfs0 c h'')

/-- C3 counterexample: `"0.0 ms"` parses to 0 although the captured numeral
is `"0.0"`, not literally `"0"`. -/
theorem c3_zero_capture_counterexample :
    extract_latency (some "0.0 ms") = some 0 ∧
    reSearchNum false "ms".data "0.0 ms".data = some ['0', '.', '0'] ∧
    (['0', '.', '0'] : List Char) ≠ ['0'] := by
  refine ⟨?_, by decide, by decide⟩
  have h := extract_latency_render ['0'] (some ['0']) 1 (by decide) (by decide)
    (fun f hf => by rw [← Option.some.inj hf]; exact ⟨by decide, by decide⟩)
  rw [show ("0.0 ms" : String) =
    String.mk (renderNum false ['0'] (some ['0']) ++
      (List.replicate 1 ' ' ++ "ms".data)) from rfl]
  rw [h]
  have hv : digitsVal ['0'] = 0 := by decide
  simp [numValQ, hv]

/-- C3 amended: null, empty, digit-free (a unit token with no numeral) and
numeral-followed-by-unrecognized-unit inputs — universally, any input in
which no recognized unit literal occurs as a substring — all parse to the
missing sentinel, never to zero and never by raising; and each of the two
cited extractors returns 0 only when the captured numeral denotes zero,
i.e. consists of `0` digits and at most a decimal point (e.g. `"0"`,
`"0.0"`, `"00"`), not only the literal `"0"`. -/
theorem c3_malformed_missing :
    extract_bandwidth none = none ∧
    extract_latency none = none ∧
    extract_bandwidth (some "") = none ∧
    extract_latency (some "") = none ∧
    (∀ s : String, (∀ c ∈ s.data, isDigitCh c = false) →
      extract_bandwidth (some s) = none ∧ extract_latency (some s) = none) ∧
    (∀ s : String, unitOccursIn "Mbps".data s.data = false →
      unitOccursIn "Kbps".data s.data = false → extract_bandwidth (some s) = none) ∧
    (∀ s : String, unitOccursIn "ms".data s.data = false →
      extract_latency (some s) = none) ∧
    extract_bandwidth (some "100 Gbps") = none ∧
    (∀ s : String, extract_latency (some s) = some 0 →
      ∃ n, reSearchNum false "ms".data s.data = some n ∧ ∀ c ∈ n, c = '0' ∨ c = '.') ∧
    (∀ s : String, extract_bandwidth (some s) = some 0 →
      ∃ n, (reSearchNum false "Mbps".data s.data = some n ∨
            reSearchNum false "Kbps".data s.data = some n) ∧
        ∀ c ∈ n, c = '0' ∨ c = '.') := by
  refine ⟨rfl, rfl, by decide, by decide, ?_, ?_, ?_, by decide, ?_, ?_⟩
  · intro s hs
    constructor
    · have h1 := reSearchNum_none_of_no_digit false ['M', 'b', 'p', 's'] s.data hs
      have h2 := reSearchNum_none_of_no_digit false ['K', 'b', 'p', 's'] s.data hs
      simp [extract_bandwidth, h1, h2]
    · have h3 := reSearchNum_none_of_no_digit false ['m', 's'] s.data hs
      simp [extract_latency, h3]
  · intro s hM hK
    have hM' : unitOccursIn ['M', 'b', 'p', 's'] s.data = false := hM
    have hK' : unitOccursIn ['K', 'b', 'p', 's'] s.data = false := hK
    have h1 := reSearchNum_none_of_not_occurs false ['M', 'b', 'p', 's'] s.data hM'
    have h2 := reSearchNum_none_of_not_occurs false ['K', 'b', 'p', 's'] s.data hK'
    simp [extract_bandwidth, h1, h2]
  · intro s hm
    have hm' : unitOccursIn ['m', 's'] s.data = false := hm
    have h3 := reSearchNum_none_of_not_occurs false ['m', 's'] s.data hm'
    simp [extract_latency, h3]
  · intro s hs
    simp only [extract_latency, Option.map_eq_some'] at hs
    obtain ⟨n, hsearch, hval⟩ := hs
    exact ⟨n, hsearch, capture_zero_chars _ _ _ hsearch hval⟩
  · intro s hs
    simp only [extract_bandwidth] at hs
    cases hmb : reSearchNum false ['M', 'b', 'p', 's'] s.data with
    | some n =>
      rw [hmb] at hs
      have hv : parseNumeral n = 0 := Option.some.inj hs
      exact ⟨n, Or.inl rfl, capture_zero_chars _ _ _ hmb hv⟩
    | none =>
      rw [hmb] at hs
      cases hkb : reSearchNum false ['K', 'b', 'p', 's'] s.data with
      | none =>
        rw [hkb] at hs
        exact absurd hs (by simp)
      | some n =>
        rw [hkb] at hs
        have hv1000 : parseNumeral n / 1000 = 0 := Option.some.inj hs
        have hv : parseNumeral n = 0 := by
          rcases div_eq_zero_iff.mp hv1000 with h' | h'
          · exact h'
          · norm_num at h'
        exact ⟨n, Or.inr rfl, capture_zero_chars _ _ _ hkb hv⟩

/-- Witness for C3 at concrete inputs: the digit-free string `"Mbps"` parses
to missing for both extractors; `"100 GB"` (bandwidth) and `"30 sec"`
(latency) — numerals followed by unrecognized units — parse to missing; and
the zero-valued captures of `"00 ms"` and `"0.0 Kbps"` consist of `0` digits
and at most a dot. -/
theorem c3_malformed_missing_witness :
    (extract_bandwidth (some "Mbps") = none ∧ extract_latency (some "Mbps") = none) ∧
    extract_bandwidth (some "100 GB") = none ∧
    extract_latency (some "30 sec") = none ∧
    (∃ n, reSearchNum false "ms".data ("00 ms" : String).data = some n ∧
      ∀ c ∈ n, c = '0' ∨ c = '.') ∧
    (∃ n, (reSearchNum false "Mbps".data ("0.0 Kbps" : String).data = some n ∨
      reSearchNum false "Kbps".data ("0.0 Kbps" : String).data = some n) ∧
      ∀ c ∈ n, c = '0' ∨ c = '.') := by
  refine ⟨c3_malformed_missing.2.2.2.2.1 "Mbps" (by decide),
    c3_malformed_missing.2.2.2.2.2.1 "100 GB" (by decide) (by decide),
    c3_malformed_missing.2.2.2.2.2.2.1 "30 sec" (by decide),
    c3_malformed_missing.2.2.2.2.2.2.2.2.1 "00 ms" ?_,
    c3_malformed_missing.2.2.2.2.2.2.2.2.2 "0.0 Kbps" ?_⟩
  · have h := extract_latency_render ['0', '0'] none 1 (by decide) (by decide)
      (fun f hf => by cases hf)
    rw [show ("00 ms" : String) =
      String.mk (renderNum false ['0', '0'] none ++
        (List.replicate 1 ' ' ++ "ms".data)) from rfl]
    rw [h]
    have hv : digitsVal ['0', '0'] = 0 := by decide
    simp [numValQ, hv]
  · have h := extract_bandwidth_kbps_render ['0'] (some ['0']) 1 (by decide) (by decide)
      (fun f hf => by rw [← Option.some.inj hf]; exact ⟨by decide, by decide⟩)
    rw [show ("0.0 Kbps" : String) =
      String.mk (renderNum false ['0'] (some ['0']) ++
        (List.replicate 1 ' ' ++ "Kbps".data)) from rfl]
    rw [h]
    have hv : digitsVal ['0'] = 0 := by decide
    simp [numValQ, hv]

/-- C5: the temperature deriver computes `celsius = (fahrenheit - 32) * 5/9`
elementwise, maps 32 to 0 and 212 to 100 exactly (hence within 1e-9), is
total on numeric inputs, and propagates missing to missing.  Floats are
modelled as exact rationals. -/
theorem c5_fahrenheit_to_celsius :
    fahrenheit_to_celsius (some 32) = some 0 ∧
    fahrenheit_to_celsius (some 212) = some 100 ∧
    fahrenheit_to_celsius none = none ∧
    (∀ x : ℚ, fahrenheit_to_celsius (some x) = some ((x - 32) * 5 / 9)) ∧
    (∀ (col : List (Option ℚ)) (i : Nat),
      (convert_temperature_column col)[i]? = (col[i]?).map fahrenheit_to_celsius) := by
  refine ⟨?_, ?_, rfl, fun x => rfl, fun col i => ?_⟩
  · show some ((32 - 32) * 5 / 9 : ℚ) = some 0
    norm_num
  · show some ((212 - 32) * 5 / 9 : ℚ) = some 100
    norm_num
  · simp [convert_temperature_column, List.getElem?_map]

/-- C6: the schema mappers of the network and weather datasets are per-row
projections of the working table, so they never drop rows: the output row
count equals the input row count, for every working table. -/
theorem c6_schema_mapper_row_count :
    (∀ rows : List NetWorkingRow,
      (NetworkPerformanceParsing.create_schema_compliant_format rows).length = rows.length) ∧
    (∀ rows : List WeatherWorkingRow,
      (WeatherUnitConversion.create_schema_compliant_format rows).length = rows.length) :=
  ⟨fun rows => List.length_map rows _, fun rows => List.length_map rows _⟩

/-- C8 counterexample: for the pre-epoch time -0.5 s (-500000000 ns) the code
computes floor division `-500000000 // 10^9 = -1`, while truncation toward
zero gives 0. -/
theorem c8_floor_not_trunc_counterexample :
    convert_timestamp_ns (-500000000) = -1 ∧
    Int.tdiv (-500000000) 1000000000 = 0 ∧
    ((-1 : Int) ≠ 0) := by
  refine ⟨by decide, by decide, by decide⟩

/-- C8 amended: the output timestamp is the integer floor (toward negative
infinity) of the parsed nanosecond time divided by 10^9; for times at or
after the epoch this coincides with truncation toward zero, but for
fractional-second times before the epoch it rounds down, not toward zero. -/
theorem c8_timestamp_floor :
    (∀ ns : Int, 0 ≤ ns → convert_timestamp_ns ns = Int.tdiv ns 1000000000) ∧
    (∀ ns : Int, 1000000000 * convert_timestamp_ns ns ≤ ns ∧
      ns < 1000000000 * (convert_timestamp_ns ns + 1)) := by
  constructor
  · intro ns h
    exact Int.fdiv_eq_tdiv h (by norm_num)
  · intro ns
    rw [show convert_timestamp_ns ns = Int.fdiv ns 1000000000 from rfl,
      Int.fdiv_eq_ediv _ (by norm_num)]
    omega

/-- Witness for C8: truncation agreement at 2.5 s and the floor bounds at
-0.5 s. -/
theorem c8_timestamp_floor_witness :
    convert_timestamp_ns 2500000000 = Int.tdiv 2500000000 1000000000 ∧
    (1000000000 * convert_timestamp_ns (-500000000) ≤ -500000000 ∧
      (-500000000 : Int) < 1000000000 * (convert_timestamp_ns (-500000000) + 1)) :=
  ⟨c8_timestamp_floor.1 2500000000 (by decide), c8_timestamp_floor.2 (-500000000)⟩

theorem load3_isSome_iff (d : PyEncoding → Bool) :
    (load_with_fallbacks [.utf8, .latin1, .cp1252] d).isSome = true ↔
      (d .utf8 = true ∨ d .latin1 = true ∨ d .cp1252 = true) := by
  cases h1 : d .utf8 <;> cases h2 : d .latin1 <;> cases h3 : d .cp1252 <;>
    simp [load_with_fallbacks, h1, h2, h3]

theorem load1_isSome_iff (d : PyEncoding → Bool) :
    (load_with_fallbacks [.utf8] d).isSome = true ↔ d .utf8 = true := by
  cases h1 : d .utf8 <;> simp [load_with_fallbacks, h1]

/-- C9 counterexample: a file decodable only as latin-1 loads fine through
the retail loader's fallback chain, but the network loader (a bare
`pd.read_csv`, utf-8 only) aborts on it: not every dataset's load step has
the three-encoding fallback. -/
theorem c9_loader_fallback_counterexample :
    load_with_fallbacks retail_encodings (fun e => decide (e = PyEncoding.latin1)) =
      some PyEncoding.latin1 ∧
    load_with_fallbacks network_encodings (fun e => decide (e = PyEncoding.latin1)) = none ∧
    network_encodings ≠ [PyEncoding.utf8, PyEncoding.latin1, PyEncoding.cp1252] := by
  refine ⟨by decide, by decide, by decide⟩

/-- C9 amended: only the retail sales load and the environmental water-meter
load try utf-8, then latin-1, then cp1252 in that fixed order, succeeding on
the first encoding that decodes and aborting only after all three fail; the
network, agriculture, health, weather and environmental air loads try only
the default utf-8 and abort on the first decode error. -/
theorem c9_encoding_fallbacks :
    (∀ d : PyEncoding → Bool,
      ((load_with_fallbacks retail_encodings d).isSome = true ↔
        (d .utf8 = true ∨ d .latin1 = true ∨ d .cp1252 = true)) ∧
      ((load_with_fallbacks water_encodings d).isSome = true ↔
        (d .utf8 = true ∨ d .latin1 = true ∨ d .cp1252 = true)) ∧
      ((load_with_fallbacks network_encodings d).isSome = true ↔ d .utf8 = true) ∧
      ((load_with_fallbacks agriculture_encodings d).isSome = true ↔ d .utf8 = true) ∧
      ((load_with_fallbacks health_encodings d).isSome = true ↔ d .utf8 = true) ∧
      ((load_with_fallbacks weather_encodings d).isSome = true ↔ d .utf8 = true) ∧
      ((load_with_fallbacks air_encodings d).isSome = true ↔ d .utf8 = true)) ∧
    (∀ d : PyEncoding → Bool, d PyEncoding.utf8 = true →
      load_with_fallbacks retail_encodings d = some PyEncoding.utf8) ∧
    (∀ d : PyEncoding → Bool, d PyEncoding.utf8 = false → d PyEncoding.latin1 = true →
      load_with_fallbacks retail_encodings d = some PyEncoding.latin1) ∧
    (∀ d : PyEncoding → Bool, d PyEncoding.utf8 = false → d PyEncoding.latin1 = false →
      d PyEncoding.cp1252 = true →
      load_with_fallbacks retail_encodings d = some PyEncoding.cp1252) := by
  refine ⟨fun d => ⟨load3_isSome_iff d, load3_isSome_iff d, load1_isSome_iff d,
    load1_isSome_iff d, load1_isSome_iff d, load1_isSome_iff d, load1_isSome_iff d⟩,
    fun d h1 => ?_, fun d h1 h2 => ?_, fun d h1 h2 h3 => ?_⟩
  · simp [load_with_fallbacks, retail_encodings, h1]
  · simp [load_with_fallbacks, retail_encodings, h1, h2]
  · simp [load_with_fallbacks, retail_encodings, h1, h2, h3]

/-- Witness for C9: a utf-8-decodable file loads as utf-8, a latin-1-only
file loads as latin-1, and a cp1252-only file loads as cp1252, through the
retail fallback chain. -/
theorem c9_encoding_fallbacks_witness :
    load_with_fallbacks retail_encodings (fun _ => true) = some PyEncoding.utf8 ∧
    load_with_fallbacks retail_encodings
      (fun e => decide (e = PyEncoding.latin1)) = some PyEncoding.latin1 ∧
    load_with_fallbacks retail_encodings
      (fun e => decide (e = PyEncoding.cp1252)) = some PyEncoding.cp1252 :=
  ⟨c9_encoding_fallbacks.2.1 (fun _ => true) rfl,
   c9_encoding_fallbacks.2.2.1 (fun e => decide (e = PyEncoding.latin1)) (by decide) (by decide),
   c9_encoding_fallbacks.2.2.2 (fun e => decide (e = PyEncoding.cp1252)) (by decide) (by decide)
     (by decide)⟩

/-- C10: every network row's device identifier is one of the nine fixed
tower strings, and a row whose parsed signal strength is missing always
falls into the low-signal branch (both `>=` comparisons with NaN are false)
and gets one of towers 7-9. -/
theorem c10_cell_tower_ids :
    (∀ (i : Nat) (s : Option ℚ), cell_tower_device_id i s ∈ all_tower_ids) ∧
    (∀ (i : Nat) (s : Option ℚ), s = none →
      cell_tower_device_id i s ∈ low_signal_tower_ids) := by
  constructor
  · intro i s
    have h3 : i % 3 = 0 ∨ i % 3 = 1 ∨ i % 3 = 2 := by omega
    rcases h3 with h | h | h <;>
      · simp only [cell_tower_device_id, tower_num, h]
        split_ifs <;> decide
  · intro i s hs
    subst hs
    have h3 : i % 3 = 0 ∨ i % 3 = 1 ∨ i % 3 = 2 := by omega
    rcases h3 with h | h | h <;> simp only [cell_tower_device_id, tower_num, geNaN, h] <;> decide

/-- Witness for C10: row 0 with missing signal strength is assigned
tower 7. -/
theorem c10_cell_tower_ids_witness :
    cell_tower_device_id 0 none ∈ low_signal_tower_ids :=
  c10_cell_tower_ids.2 0 none rfl

/-- C7 counterexample: the agriculture generator interpolates the key
verbatim — `"R1"` yields `did:lcore:agri-R1`, not the spec-normalized
(lowercased) `did:lcore:agri-r1` — so the key part is not normalized as the
claim states. -/
theorem c7_no_normalization_counterexample :
    AgricultureTransformation.create_device_id "R1" = "did:lcore:agri-R1" ∧
    "did:lcore:agri-" ++ spec_normalize_key "R1" = "did:lcore:agri-r1" ∧
    ("did:lcore:agri-R1" : String) ≠ "did:lcore:agri-r1" := by
  refine ⟨rfl, by decide, by decide⟩

/-- C7 amended: identifiers have the shape `did:lcore:<category>-<key-part>`,
but only the retail generator normalizes its key — lowercasing, mapping
spaces to hyphens (no space survives) and replacing `&` by `and` — while the
agriculture and health generators interpolate the key verbatim (health first
deletes `Device_` occurrences); no generator strips a general unsafe
charset. -/
theorem c7_identifier_shapes :
    (∀ r : String, (region_clean r).data.all (fun c => !(c == ' ')) = true) ∧
    region_clean "Country Club Plaza" = "country-club-plaza" ∧
    region_clean "Power & Light District" = "power-and-light-district" ∧
    (∀ k : String, AgricultureTransformation.create_device_id k = "did:lcore:agri-" ++ k) ∧
    (∀ x : String, ∃ suffix : String,
      HealthPrivacyProtection.convert_device_id x = "did:lcore:health-tracker-" ++ suffix) ∧
    HealthPrivacyProtection.convert_device_id "Device_A12" = "did:lcore:health-tracker-A12" := by
  refine ⟨?_, by decide, by decide, fun k => rfl,
    fun x => ⟨String.mk (strip_device_token x.data), rfl⟩, by decide⟩
  intro r
  rw [List.all_eq_true]
  intro c hc
  have hc' : c ∈ ((r.data.map pyLowerChar).map fun c => if c = ' ' then '-' else c).flatMap
      (fun c => if c = '&' then "and".data else [c]) := hc
  rcases List.mem_flatMap.mp hc' with ⟨a, ha, hcif⟩
  by_cases hamp : a = '&'
  · rw [if_pos hamp] at hcif
    have h3 : c = 'a' ∨ c = 'n' ∨ c = 'd' := by simpa using hcif
    rcases h3 with h | h | h <;> subst h <;> decide
  · rw [if_neg hamp] at hcif
    have hca : c = a := List.mem_singleton.mp hcif
    subst hca
    rcases List.mem_map.mp ha with ⟨b, _, hab⟩
    by_cases hb : b = ' '
    · rw [if_pos hb] at hab
      rw [← hab]
      decide
    · rw [if_neg hb] at hab
      rw [← hab]
      simpa using hb
